import Mathlib

/-!
# particles.c : a shallow embedding

The host program `particles.c` drives three OpenCL kernels from a GTK main
loop.  This file embeds the host code: the global variables become the fields
of `State`, every C function becomes a Lean function on `State`, and the
calls into the OpenCL runtime and GDK are recorded, in program order, in
`State.trace`.

* C `float` values are kept abstract: the development is generic in a type `F`
  carrying the operations the host code uses (`+`, `-`, literals).  It can be
  instantiated with the decimal fixed-point numbers `Centi` to evaluate the
  definitions.
* C `int` arithmetic wraps to 32 bits (`int_mul`), `size_t` arithmetic to
  64 bits (`size_t_mul`).
* The OpenCL runtime is external.  A call on objects that are all valid
  succeeds or fails as the environment decides (`Env.cl`, indexed by the number
  of external calls made so far); a call on an object that was never created
  or has been released reports an error, as the OpenCL error contract says.
* Output to stdout / stderr is not modelled.
-/

namespace Particles

/-! ## Constants -/

def DEFAULT_WIDTH : Int := 800
def DEFAULT_HEIGHT : Int := 800
def DEFAULT_R : Nat := 100
def DEFAULT_G : Nat := 20
def DEFAULT_B : Nat := 237

section FloatConstants
variable {F : Type} [OfScientific F]

def DEFAULT_N_PARTICLES : F := 100.0
def DEFAULT_TRACE : F := 0.15
def DEFAULT_RADIUS : F := 10.0
def DEFAULT_DELTA : F := 0.04
def MILLI : F := 1000.0
def PRECISION : F := 0.05
def DEFAULT_FORCE_X : F := 0.0
def DEFAULT_FORCE_Y : F := 100.0
def FORCE : F := 10.0
def DEFAULT_INIT_SPEED : F := 100.0
def DEFAULT_DISSIPATION : F := 0.0

end FloatConstants

/-! ## Machine integers -/

/-- C `int` multiplication, wrapping to 32 bits (two's complement). -/
def int_mul (a b : Int) : Int := (a * b + 2 ^ 31) % 2 ^ 32 - 2 ^ 31

/-- Conversion of a C integer to `size_t` (64 bits). -/
def to_size_t (x : Int) : Nat := (x % 2 ^ 64).toNat

/-- Multiplication in `size_t`. -/
def size_t_mul (a b : Nat) : Nat := (a * b) % 2 ^ 64

/-! ## Global variables -/

/-- The simulation, physics and graphics globals (`N` ... `B`). -/
structure Params (F : Type) where
  N : F
  TRACE : F
  RADIUS : F
  DELTA : F
  INIT_SPEED : F
  DISSIPATION : F
  FX : F
  FY : F
  R : Nat
  G : Nat
  B : Nat
deriving DecidableEq, Repr

/-- A host image as seen through the `gdk_pixbuf_get_*` accessors. -/
structure Pixbuf where
  width : Int
  height : Int
  rowstride : Int
  n_channels : Int
deriving DecidableEq, Repr

/-- The OpenCL objects held in global variables. -/
inductive Obj where
  | CONTEXT
  | INIT_KERNEL
  | ALPHA_KERNEL
  | BALLS_KERNEL
  | QUEUE
  | DEVICE_PIXELS
  | DEVICE_BALLS
deriving DecidableEq, Repr

/-- One call into the OpenCL runtime or GDK.  `ok` is whether the call
reported success; for `release`, `valid` is whether the object released was
valid (created and not released since) at the time of the call. -/
inductive Event where
  | choose_device (ok : Bool)
  | create (o : Obj) (size : Nat) (ok : Bool)
  | release (o : Obj) (valid : Bool)
  | setArg (k : Obj) (idx : Nat) (ok : Bool)
  | launch (k : Obj) (size : Nat) (ok : Bool)
  | finish
  | read (bytes : Nat) (ok : Bool)
  | draw
  | main_quit
deriving DecidableEq, Repr

/-- The global state of the program.  The fields `CONTEXT` ... `QUEUE` say
whether the handle in the variable of that name is a valid object;
`DEVICE_PIXELS` and `DEVICE_BALLS` hold the byte size of the buffer when the
handle is valid.  `quit` records that `gtk_main_quit` was called. -/
structure State (F : Type) where
  params : Params F
  PIXBUF : Option Pixbuf
  opencl_framework_available : Bool
  device_pixels_allocated : Bool
  device_balls_allocated : Bool
  CONTEXT : Bool
  INIT_KERNEL : Bool
  ALPHA_KERNEL : Bool
  BALLS_KERNEL : Bool
  QUEUE : Bool
  DEVICE_PIXELS : Option Nat
  DEVICE_BALLS : Option Nat
  trace : List Event
  quit : Bool
deriving DecidableEq, Repr

/-- What the program does not define itself. -/
structure Env (F : Type) where
  /-- outcome (success?) the OpenCL runtime gives to the call made after
  `k` earlier external calls, when all objects it is given are valid -/
  cl : Nat → Bool
  /-- row stride `gdk_pixbuf_new` chooses for an RGB image of a given width -/
  rowstride : Int → Int
  /-- `strtod` followed by the conversion to `float` -/
  strtod : List Char → F
  /-- conversion of a `float` to a C integer (truncation) -/
  toInt : F → Int

/-- The static initialisers of the globals. -/
def default_params {F : Type} [OfScientific F] : Params F :=
  { N := DEFAULT_N_PARTICLES, TRACE := DEFAULT_TRACE, RADIUS := DEFAULT_RADIUS,
    DELTA := DEFAULT_DELTA, INIT_SPEED := DEFAULT_INIT_SPEED,
    DISSIPATION := DEFAULT_DISSIPATION, FX := DEFAULT_FORCE_X, FY := DEFAULT_FORCE_Y,
    R := DEFAULT_R, G := DEFAULT_G, B := DEFAULT_B }

/-- The program state before `main` runs. -/
def init_state {F : Type} [OfScientific F] : State F :=
  { params := default_params, PIXBUF := none,
    opencl_framework_available := false,
    device_pixels_allocated := false, device_balls_allocated := false,
    CONTEXT := false, INIT_KERNEL := false, ALPHA_KERNEL := false,
    BALLS_KERNEL := false, QUEUE := false,
    DEVICE_PIXELS := none, DEVICE_BALLS := none,
    trace := [], quit := false }

/-! ## SETUP : `read_args` -/

/-- The keyword array `args` of `read_args`. -/
def args : List (List Char) :=
  [ ['n', '='], ['f', 'x', '='], ['f', 'y', '='], ['t', 'r', 'a', 'c', 'e', '='],
    ['r', 'a', 'd', 'i', 'u', 's', '='], ['d', 'e', 'l', 't', 'a', '='],
    ['s', 'p', 'e', 'e', 'd', '='] ]

/-- The store `*args_p[j] = read` through the pointer array `args_p`. -/
def args_p {F : Type} (j : Nat) (read : F) (p : Params F) : Params F :=
  match j with
  | 0 => { p with N := read }
  | 1 => { p with FX := read }
  | 2 => { p with FY := read }
  | 3 => { p with TRACE := read }
  | 4 => { p with RADIUS := read }
  | 5 => { p with DELTA := read }
  | 6 => { p with INIT_SPEED := read }
  | _ => p

/-- The value `*args_p[j]`. -/
def args_get {F : Type} [OfScientific F] (j : Nat) (p : Params F) : F :=
  match j with
  | 0 => p.N
  | 1 => p.FX
  | 2 => p.FY
  | 3 => p.TRACE
  | 4 => p.RADIUS
  | 5 => p.DELTA
  | 6 => p.INIT_SPEED
  | _ => 0.0

/-- The inner loop of `read_args` from keyword index `j` on, `ks` being the
keywords `args[j], args[j+1], ...`: the first keyword that is a prefix of
`arg` (the `memcmp` over `strlen(args[j])` bytes) stores the number read
behind it and stops the search.  Returns `found` and the parameters. -/
def search_args {F : Type} (strtod : List Char → F) (arg : List Char) :
    List (List Char) → Nat → Params F → Bool × Params F
  | [], _, p => (false, p)
  | k :: ks, j, p =>
    if k.isPrefixOf arg then (true, args_p j (strtod (arg.drop k.length)) p)
    else search_args strtod arg ks (j + 1) p

/-- `read_args(argc, argv)` with `argc = argv.length`; `argv[0]` is the
program name. -/
def read_args {F : Type} (strtod : List Char → F) (p : Params F)
    (argv : List (List Char)) : Int × Params F :=
  let n : Int := 7
  if (argv.length : Int) > n + 1 then (-1, p)
  else (0, (argv.drop 1).foldl (fun q arg => (search_args strtod arg args 0 q).2) p)

/-- The command-line token `key=value` made of the keyword `args[e.1]` and
the text `e.2`. -/
def token (e : Nat × List Char) : List Char := args.getD e.1 [] ++ e.2

/-! ## CONTROLS : `keyboard_input`

The event type and the key values are those of the GDK headers. -/

def GDK_KEY_PRESS : Int := 8
def GDK_KEY_Up : Nat := 0xff52
def GDK_KEY_Down : Nat := 0xff54
def GDK_KEY_Left : Nat := 0xff51
def GDK_KEY_Right : Nat := 0xff53
def GDK_KEY_a : Nat := 0x061
def GDK_KEY_d : Nat := 0x064
def GDK_KEY_r : Nat := 0x072
def GDK_KEY_g : Nat := 0x067
def GDK_KEY_b : Nat := 0x062
def GDK_KEY_i : Nat := 0x069
def GDK_KEY_Q : Nat := 0x051
def GDK_KEY_q : Nat := 0x071

/-- The fields of `GdkEventKey` the handler reads. -/
structure GdkEventKey where
  type : Int
  keyval : Nat
deriving DecidableEq, Repr

/-- `gtk_main_quit()`. -/
def gtk_main_quit {F : Type} (s : State F) : State F :=
  { s with quit := true, trace := s.trace ++ [Event.main_quit] }

/-- `keyboard_input(widget, event)`; the result is the `gint` returned
(`TRUE` / `FALSE`) and the new globals. -/
def keyboard_input {F : Type} [OfScientific F] [Add F] [Sub F]
    (s : State F) (event : GdkEventKey) : Bool × State F :=
  if event.type ≠ GDK_KEY_PRESS then (false, s)
  else if event.keyval = GDK_KEY_Up then
    (true, { s with params := { s.params with FY := s.params.FY - FORCE } })
  else if event.keyval = GDK_KEY_Down then
    (true, { s with params := { s.params with FY := s.params.FY + FORCE } })
  else if event.keyval = GDK_KEY_Left then
    (true, { s with params := { s.params with FX := s.params.FX - FORCE } })
  else if event.keyval = GDK_KEY_Right then
    (true, { s with params := { s.params with FX := s.params.FX + FORCE } })
  else if event.keyval = GDK_KEY_a then
    (true, { s with params := { s.params with TRACE := s.params.TRACE - PRECISION } })
  else if event.keyval = GDK_KEY_d then
    (true, { s with params := { s.params with TRACE := s.params.TRACE + PRECISION } })
  else if event.keyval = GDK_KEY_r then
    (true, { s with params := { s.params with R := 255, G := 0, B := 0 } })
  else if event.keyval = GDK_KEY_g then
    (true, { s with params := { s.params with R := 0, G := 255, B := 0 } })
  else if event.keyval = GDK_KEY_b then
    (true, { s with params := { s.params with R := 0, G := 0, B := 255 } })
  else if event.keyval = GDK_KEY_i then
    (true, { s with params := { s.params with R := DEFAULT_R, G := DEFAULT_G, B := DEFAULT_B } })
  else if event.keyval = GDK_KEY_Q ∨ event.keyval = GDK_KEY_q then
    (true, gtk_main_quit s)
  else (false, s)

/-! ## OPENCL : runtime calls -/

/-- Append one external call to the trace. -/
def State.emit {F : Type} (s : State F) (e : Event) : State F :=
  { s with trace := s.trace ++ [e] }

/-- Whether the handle in the global variable `o` is a valid object. -/
def State.valid {F : Type} (s : State F) : Obj → Bool
  | .CONTEXT => s.CONTEXT
  | .INIT_KERNEL => s.INIT_KERNEL
  | .ALPHA_KERNEL => s.ALPHA_KERNEL
  | .BALLS_KERNEL => s.BALLS_KERNEL
  | .QUEUE => s.QUEUE
  | .DEVICE_PIXELS => s.DEVICE_PIXELS.isSome
  | .DEVICE_BALLS => s.DEVICE_BALLS.isSome

/-- Assign the global variable `o`: `some size` is a valid object (of that
byte size when it is a buffer), `none` a handle that is not valid. -/
def State.assign {F : Type} (s : State F) (o : Obj) (v : Option Nat) : State F :=
  match o with
  | .CONTEXT => { s with CONTEXT := v.isSome }
  | .INIT_KERNEL => { s with INIT_KERNEL := v.isSome }
  | .ALPHA_KERNEL => { s with ALPHA_KERNEL := v.isSome }
  | .BALLS_KERNEL => { s with BALLS_KERNEL := v.isSome }
  | .QUEUE => { s with QUEUE := v.isSome }
  | .DEVICE_PIXELS => { s with DEVICE_PIXELS := v }
  | .DEVICE_BALLS => { s with DEVICE_BALLS := v }

/-- Outcome of an external call whose objects are valid iff `valid`. -/
def Env.outcome {F : Type} (env : Env F) (s : State F) (valid : Bool) : Bool :=
  valid && env.cl s.trace.length

/-- `util_choose_device(&DEVICE)`, a function of `opencl_util.h`, which is not
among the sources: whether it finds a device is the environment's choice.  The
result is "failed" (a non-zero return). -/
def util_choose_device {F : Type} (env : Env F) (s : State F) : Bool × State F :=
  let ok := env.outcome s true
  (!ok, s.emit (Event.choose_device ok))

/-- The creation calls `clCreateContext`, `util_compile_kernel`,
`clCreateCommandQueue` and `clCreateBuffer`, storing the handle in the global
variable `o`; everything but the context is created in `CONTEXT`.  The result
is "failed" (`err != CL_SUCCESS`, or a non-zero return of
`util_compile_kernel`, a function of `opencl_util.h`, which is not among the
sources: it is taken to leave a valid kernel exactly when it returns 0). -/
def clCreate {F : Type} (env : Env F) (s : State F) (o : Obj) (size : Nat) : Bool × State F :=
  let ok := env.outcome s (o = Obj.CONTEXT || s.CONTEXT)
  (!ok, (s.assign o (if ok then some size else none)).emit (Event.create o size ok))

/-- The release calls `clReleaseKernel`, `clReleaseCommandQueue`,
`clReleaseContext` and `clReleaseMemObject` on the global variable `o`. -/
def clRelease {F : Type} (s : State F) (o : Obj) : State F :=
  (s.assign o none).emit (Event.release o (s.valid o))

/-- `clSetKernelArg(k, idx, ...)`; the result is "failed". -/
def clSetKernelArg {F : Type} (env : Env F) (s : State F) (k : Obj) (idx : Nat) : Bool × State F :=
  let ok := env.outcome s (s.valid k)
  (!ok, s.emit (Event.setArg k idx ok))

/-- `clEnqueueNDRangeKernel(QUEUE, k, 1, NULL, &size, ...)`; the result is
"failed". -/
def clEnqueueNDRangeKernel {F : Type} (env : Env F) (s : State F) (k : Obj) (size : Nat) :
    Bool × State F :=
  let ok := env.outcome s (s.QUEUE && s.valid k)
  (!ok, s.emit (Event.launch k size ok))

/-- `clFinish(QUEUE)`; its return value is never looked at. -/
def clFinish {F : Type} (s : State F) : State F := s.emit Event.finish

/-- `clEnqueueReadBuffer(QUEUE, DEVICE_PIXELS, CL_TRUE, 0, bytes, ...)`, valid
when the queue and the buffer are and the region lies inside the buffer; the
result is "failed". -/
def clEnqueueReadBuffer {F : Type} (env : Env F) (s : State F) (bytes : Nat) : Bool × State F :=
  let inside := match s.DEVICE_PIXELS with
    | some size => decide (bytes ≤ size)
    | none => false
  let ok := env.outcome s (s.QUEUE && inside)
  (!ok, s.emit (Event.read bytes ok))

/-! ## GDK pixbuf -/

/-- `gdk_pixbuf_new(GDK_COLORSPACE_RGB, 0, 8, width, height)`, taken to
succeed; the row stride is the one the environment gives for the width. -/
def gdk_pixbuf_new {F : Type} (env : Env F) (width height : Int) : Pixbuf :=
  { width := width, height := height, rowstride := env.rowstride width, n_channels := 3 }

/-- `gdk_pixbuf_get_width`; -1 on a NULL pixbuf. -/
def gdk_pixbuf_get_width : Option Pixbuf → Int
  | some pb => pb.width
  | none => -1

/-- `gdk_pixbuf_get_height`; -1 on a NULL pixbuf. -/
def gdk_pixbuf_get_height : Option Pixbuf → Int
  | some pb => pb.height
  | none => -1

/-- `gdk_pixbuf_get_rowstride`; -1 on a NULL pixbuf. -/
def gdk_pixbuf_get_rowstride : Option Pixbuf → Int
  | some pb => pb.rowstride
  | none => -1

/-- `gdk_pixbuf_get_n_channels`; -1 on a NULL pixbuf. -/
def gdk_pixbuf_get_n_channels : Option Pixbuf → Int
  | some pb => pb.n_channels
  | none => -1

/-! ## OPENCL : framework -/

/-- Label `device_unavailable:` of `initialize_opencl_framework`. -/
def device_unavailable {F : Type} (s : State F) : State F :=
  { s with opencl_framework_available := false }

/-- Label `cleanup_init_kernel:`. -/
def cleanup_init_kernel {F : Type} (s : State F) : State F :=
  device_unavailable (clRelease s Obj.CONTEXT)

/-- Label `cleanup_alpha_kernel:`. -/
def cleanup_alpha_kernel {F : Type} (s : State F) : State F :=
  cleanup_init_kernel (clRelease s Obj.INIT_KERNEL)

/-- Label `cleanup_balls_kernel:`. -/
def cleanup_balls_kernel {F : Type} (s : State F) : State F :=
  cleanup_alpha_kernel (clRelease s Obj.ALPHA_KERNEL)

/-- Label `cleanup_queue:`. -/
def cleanup_queue {F : Type} (s : State F) : State F :=
  cleanup_balls_kernel (clRelease s Obj.BALLS_KERNEL)

/-- `initialize_opencl_framework()`. -/
def initialize_opencl_framework {F : Type} (env : Env F) (s : State F) : State F :=
  let r0 := util_choose_device env s
  if r0.1 then device_unavailable r0.2
  else
    let r1 := clCreate env r0.2 Obj.CONTEXT 0
    if r1.1 then device_unavailable r1.2
    else
      let r2 := clCreate env r1.2 Obj.INIT_KERNEL 0
      if r2.1 then cleanup_init_kernel r2.2
      else
        let r3 := clCreate env r2.2 Obj.ALPHA_KERNEL 0
        if r3.1 then cleanup_alpha_kernel r3.2
        else
          let r4 := clCreate env r3.2 Obj.BALLS_KERNEL 0
          if r4.1 then cleanup_balls_kernel r4.2
          else
            let r5 := clCreate env r4.2 Obj.QUEUE 0
            if r5.1 then cleanup_queue r5.2
            else { r5.2 with opencl_framework_available := true }

/-- `shutdown_opencl_framework()`. -/
def shutdown_opencl_framework {F : Type} (s : State F) : State F :=
  if s.opencl_framework_available then
    let s1 := clRelease s Obj.BALLS_KERNEL
    let s2 := clRelease s1 Obj.ALPHA_KERNEL
    let s3 := clRelease s2 Obj.INIT_KERNEL
    let s4 := clRelease s3 Obj.QUEUE
    let s5 := clRelease s4 Obj.CONTEXT
    let s6 := if s5.device_pixels_allocated then
        { clRelease s5 Obj.DEVICE_PIXELS with device_pixels_allocated := false }
      else s5
    let s7 := if s6.device_balls_allocated then
        { clRelease s6 Obj.DEVICE_BALLS with device_balls_allocated := false }
      else s6
    { s7 with opencl_framework_available := false }
  else s

/-- The releases `shutdown_opencl_framework` makes when the framework is
available, in program order. -/
def shutdown_calls {F : Type} (s : State F) : List Event :=
  [Event.release Obj.BALLS_KERNEL s.BALLS_KERNEL,
   Event.release Obj.ALPHA_KERNEL s.ALPHA_KERNEL,
   Event.release Obj.INIT_KERNEL s.INIT_KERNEL,
   Event.release Obj.QUEUE s.QUEUE,
   Event.release Obj.CONTEXT s.CONTEXT] ++
  (if s.device_pixels_allocated then [Event.release Obj.DEVICE_PIXELS s.DEVICE_PIXELS.isSome]
   else []) ++
  (if s.device_balls_allocated then [Event.release Obj.DEVICE_BALLS s.DEVICE_BALLS.isSome]
   else [])

/-- `allocate_device_pixels()`. -/
def allocate_device_pixels {F : Type} (env : Env F) (s : State F) : State F :=
  if s.opencl_framework_available then
    let s1 := if s.device_pixels_allocated then
        { clRelease s Obj.DEVICE_PIXELS with device_pixels_allocated := false }
      else s
    let rows := gdk_pixbuf_get_height s1.PIXBUF
    let row_stride := gdk_pixbuf_get_rowstride s1.PIXBUF
    let r := clCreate env s1 Obj.DEVICE_PIXELS
      (size_t_mul (size_t_mul 1 (to_size_t row_stride)) (to_size_t rows))
    if r.1 then shutdown_opencl_framework r.2
    else { r.2 with device_pixels_allocated := true }
  else s

/-- `allocate_device_balls()`. -/
def allocate_device_balls {F : Type} (env : Env F) (s : State F) : State F :=
  if s.opencl_framework_available then
    let s1 := if s.device_balls_allocated then
        { clRelease s Obj.DEVICE_BALLS with device_balls_allocated := false }
      else s
    let n_balls := env.toInt s1.params.N
    let r := clCreate env s1 Obj.DEVICE_BALLS
      (size_t_mul (size_t_mul 4 (to_size_t n_balls)) 4)
    if r.1 then shutdown_opencl_framework r.2
    else { r.2 with device_balls_allocated := true }
  else s

/-! ## RUNNING -/

/-- The chain `err = clSetKernelArg(k, 0, ..); err |= clSetKernelArg(k, 1, ..);
...` over the argument indices `idx, idx + 1, ..., idx + count - 1`; the result
is `err != CL_SUCCESS`. -/
def set_kernel_args {F : Type} (env : Env F) (k : Obj) :
    Nat → Nat → Bool × State F → Bool × State F
  | 0, _, r => r
  | count + 1, idx, r =>
    let r1 := clSetKernelArg env r.2 k idx
    set_kernel_args env k count (idx + 1) (r.1 || r1.1, r1.2)

/-- `randomize_balls()`. -/
def randomize_balls {F : Type} (env : Env F) (s : State F) : State F :=
  let r := set_kernel_args env Obj.INIT_KERNEL 6 0 (false, s)
  if r.1 then r.2
  else
    let init_kernel_size := to_size_t (env.toInt r.2.params.N)
    let l := clEnqueueNDRangeKernel env r.2 Obj.INIT_KERNEL init_kernel_size
    clFinish l.2

/-- `alpha()`: the error of the three `clSetKernelArg` calls is overwritten
by that of the launch. -/
def alpha {F : Type} (env : Env F) (s : State F) : Int × State F :=
  let height := gdk_pixbuf_get_height s.PIXBUF
  let row_stride := gdk_pixbuf_get_rowstride s.PIXBUF
  let r := set_kernel_args env Obj.ALPHA_KERNEL 3 0 (false, s)
  let alpha_kernel_size := to_size_t (int_mul height row_stride)
  let l := clEnqueueNDRangeKernel env r.2 Obj.ALPHA_KERNEL alpha_kernel_size
  if l.1 then (-1, l.2) else (0, l.2)

/-- `move_balls()`. -/
def move_balls {F : Type} (env : Env F) (s : State F) : Int × State F :=
  let r := set_kernel_args env Obj.BALLS_KERNEL 13 0 (false, s)
  if r.1 then (-1, r.2)
  else
    let balls_kernel_size := to_size_t (env.toInt r.2.params.N)
    let l := clEnqueueNDRangeKernel env r.2 Obj.BALLS_KERNEL balls_kernel_size
    if l.1 then (-1, l.2) else (0, l.2)

/-- `draw_image(widget)`. -/
def draw_image {F : Type} (env : Env F) (s : State F) : Int × State F :=
  let h := gdk_pixbuf_get_height s.PIXBUF
  let row_stride := gdk_pixbuf_get_rowstride s.PIXBUF
  let r := clEnqueueReadBuffer env s
    (size_t_mul (size_t_mul 1 (to_size_t h)) (to_size_t row_stride))
  if r.1 then (-1, r.2) else (0, r.2.emit Event.draw)

/-- `update_and_draw_balls(widget)`; the result is the `gboolean` returned. -/
def update_and_draw_balls {F : Type} (env : Env F) (s : State F) : Bool × State F :=
  let a := alpha env s
  if a.1 ≠ 0 then (false, a.2)
  else
    let s1 := clFinish a.2
    let m := move_balls env s1
    if m.1 ≠ 0 then (false, m.2)
    else
      let s2 := clFinish m.2
      let d := draw_image env s2
      if d.1 ≠ 0 then (false, d.2) else (true, d.2)

/-! ## CONTROLS : window -/

/-- `destroy_window()`. -/
def destroy_window {F : Type} (s : State F) : State F := gtk_main_quit s

/-- `resize_pixbuf(widget, event)` with `widget->allocation` being
`width × height`; the result is the `gint` returned.  Freeing the old host
image (`g_object_unref`) leaves no mark on the state. -/
def resize_pixbuf {F : Type} (env : Env F) (s : State F) (width height : Int) :
    Bool × State F :=
  let same := match s.PIXBUF with
    | some pb => decide (pb.width = width ∧ pb.height = height)
    | none => false
  if same then (false, s)
  else
    let s1 := { s with PIXBUF := some (gdk_pixbuf_new env width height) }
    let s2 := allocate_device_pixels env s1
    let t := update_and_draw_balls env s2
    (true, t.2)

/-! ## Reading the trace -/

/-- Append several external calls to the trace. -/
def State.emits {F : Type} (s : State F) (l : List Event) : State F :=
  { s with trace := s.trace ++ l }

/-- Whether the call binds a kernel argument. -/
def Event.isSetArg : Event → Bool
  | .setArg _ _ _ => true
  | _ => false

/-- Whether the call put work on the device: a kernel launch or a readback
that the runtime accepted. -/
def Event.isEnqueued : Event → Bool
  | .launch _ _ ok => ok
  | .read _ ok => ok
  | _ => false

/-- Whether the call creates the BALLS buffer or launches the `init` kernel
that seeds it. -/
def Event.isBallsSeed : Event → Bool
  | .create Obj.DEVICE_BALLS _ _ => true
  | .launch Obj.INIT_KERNEL _ _ => true
  | _ => false

/-- Whether the call releases an OpenCL object. -/
def Event.isRelease : Event → Bool
  | .release _ _ => true
  | _ => false

/-- Whether the call is one a tick makes: an argument binding, a launch of
the fade or of the step kernel, a synchronisation, a readback or a draw. -/
def Event.isTickCall : Event → Bool
  | .setArg _ _ _ => true
  | .launch Obj.ALPHA_KERNEL _ _ => true
  | .launch Obj.BALLS_KERNEL _ _ => true
  | .finish => true
  | .read _ _ => true
  | .draw => true
  | _ => false

/-- The trace `t'` continues the trace `t` with calls that all satisfy `P`. -/
def Grows (P : Event → Prop) (t t' : List Event) : Prop :=
  ∃ l, t' = t ++ l ∧ ∀ e ∈ l, P e

/-- The release of the old PIXELS buffer at the head of
`allocate_device_pixels`, made when the flag is set. -/
def pixels_release {F : Type} (s : State F) : List Event :=
  if s.device_pixels_allocated then [Event.release Obj.DEVICE_PIXELS s.DEVICE_PIXELS.isSome]
  else []

/-- The release of the old BALLS buffer at the head of
`allocate_device_balls`, made when the flag is set. -/
def balls_release {F : Type} (s : State F) : List Event :=
  if s.device_balls_allocated then [Event.release Obj.DEVICE_BALLS s.DEVICE_BALLS.isSome]
  else []

/-- The byte size `sizeof(float)*n_balls*4` that `allocate_device_balls` asks
for. -/
def balls_size {F : Type} (env : Env F) (s : State F) : Nat :=
  size_t_mul (size_t_mul 4 (to_size_t (env.toInt s.params.N))) 4

/-- The byte size `sizeof(unsigned char)*row_stride*rows` that
`allocate_device_pixels` asks for, for a given host image. -/
def pixels_size (pixbuf : Option Pixbuf) : Nat :=
  size_t_mul (size_t_mul 1 (to_size_t (gdk_pixbuf_get_rowstride pixbuf)))
    (to_size_t (gdk_pixbuf_get_height pixbuf))

/-- The work-item count `(size_t) (height * row_stride)` of the fade launch
in `alpha`, for a given host image. -/
def fade_count (pixbuf : Option Pixbuf) : Nat :=
  to_size_t (int_mul (gdk_pixbuf_get_height pixbuf) (gdk_pixbuf_get_rowstride pixbuf))

/-- The byte count `sizeof(unsigned char)*h*row_stride` of the readback in
`draw_image`, for a given host image. -/
def read_count (pixbuf : Option Pixbuf) : Nat :=
  size_t_mul (size_t_mul 1 (to_size_t (gdk_pixbuf_get_height pixbuf)))
    (to_size_t (gdk_pixbuf_get_rowstride pixbuf))

/-- The calls of a trace other than argument bindings. -/
def ops (l : List Event) : List Event := l.filter (fun e => !e.isSetArg)

/-- The calls other than argument bindings that one run of
`update_and_draw_balls` from `s` issues, in program order. -/
def tick_ops {F : Type} (env : Env F) (s : State F) : List Event :=
  ops ((update_and_draw_balls env s).2.trace.drop s.trace.length)

/-! ## MAIN -/

/-- What the GTK main loop can deliver to the program. -/
inductive GtkEvent where
  | timeout
  | key_press_event (event : GdkEventKey)
  | configure_event (width height : Int)
  | destroy
deriving DecidableEq, Repr

/-- One dispatch of `gtk_main`: the second component says whether the timeout
installed by `gtk_timeout_add` is still armed (a callback that returns `FALSE`
is removed).  Once `gtk_main_quit` was called the loop has returned and
nothing is dispatched. -/
def gtk_dispatch {F : Type} [OfScientific F] [Add F] [Sub F] (env : Env F)
    (r : State F × Bool) : GtkEvent → State F × Bool
  | .timeout =>
    if r.1.quit then r
    else if r.2 then
      let t := update_and_draw_balls env r.1
      (t.2, t.1)
    else r
  | .key_press_event event =>
    if r.1.quit then r else ((keyboard_input r.1 event).2, r.2)
  | .configure_event width height =>
    if r.1.quit then r else ((resize_pixbuf env r.1 width height).2, r.2)
  | .destroy =>
    if r.1.quit then r else (destroy_window r.1, r.2)

/-- `gtk_main()` fed with the events `evs`, the timeout armed. -/
def gtk_main {F : Type} [OfScientific F] [Add F] [Sub F] (env : Env F)
    (s : State F) (evs : List GtkEvent) : State F × Bool :=
  evs.foldl (gtk_dispatch env) (s, true)

def EXIT_SUCCESS : Int := 0
def EXIT_FAILURE : Int := 1

/-- The part of `main` before `gtk_main()`; `none` is the early
`return EXIT_FAILURE`. -/
def main_setup {F : Type} [OfScientific F] (env : Env F) (argv : List (List Char)) :
    Option (State F) :=
  let s0 := initialize_opencl_framework env init_state
  let a := read_args env.strtod s0.params argv
  if a.1 ≠ 0 then none
  else
    let s1 := { s0 with params := a.2,
                        PIXBUF := some (gdk_pixbuf_new env DEFAULT_WIDTH DEFAULT_HEIGHT) }
    let s2 := allocate_device_pixels env s1
    let s3 := allocate_device_balls env s2
    let s4 := randomize_balls env s3
    some (draw_image env s4).2

/-- `main(argc, argv)` with the GTK loop fed with `evs`: the exit status and
the final globals.  Nothing follows `gtk_main()` but `return EXIT_SUCCESS`. -/
def main {F : Type} [OfScientific F] [Add F] [Sub F] (env : Env F)
    (argv : List (List Char)) (evs : List GtkEvent) : Int × Option (State F) :=
  match main_setup env argv with
  | none => (EXIT_FAILURE, none)
  | some s => (EXIT_SUCCESS, some (gtk_main env s evs).1)

/-- The framework is down: the queue is not valid and the three flags are
cleared. -/
def Down {F : Type} (s : State F) : Prop :=
  s.QUEUE = false ∧ s.opencl_framework_available = false ∧
  s.device_pixels_allocated = false ∧ s.device_balls_allocated = false

/-- The buffer flags and the parameters, which the creation and release calls
never touch. -/
def State.kept {F : Type} (s : State F) : Bool × Bool × Params F :=
  (s.device_pixels_allocated, s.device_balls_allocated, s.params)

/-- The PIXELS flag implies that the framework is available and that the
PIXELS buffer is valid with the byte size asked for the current host image. -/
def PixelsFit {F : Type} (s : State F) : Prop :=
  s.device_pixels_allocated = true →
    s.opencl_framework_available = true ∧ s.DEVICE_PIXELS = some (pixels_size s.PIXBUF)

/-- Nothing was created yet: no handle is valid and no flag is set, as before
`main` runs. -/
def Unborn {F : Type} (s : State F) : Prop :=
  s.opencl_framework_available = false ∧ s.device_pixels_allocated = false ∧
  s.device_balls_allocated = false ∧ s.CONTEXT = false ∧ s.INIT_KERNEL = false ∧
  s.ALPHA_KERNEL = false ∧ s.BALLS_KERNEL = false ∧ s.QUEUE = false ∧
  s.DEVICE_PIXELS = none ∧ s.DEVICE_BALLS = none

/-- The flags tell the truth: with the framework flag set the context, the
three kernels and the queue are valid, and a set buffer flag means that the
framework flag is set and the buffer valid. -/
def Coherent {F : Type} (s : State F) : Prop :=
  (s.opencl_framework_available = true →
    s.CONTEXT = true ∧ s.INIT_KERNEL = true ∧ s.ALPHA_KERNEL = true ∧
    s.BALLS_KERNEL = true ∧ s.QUEUE = true) ∧
  (s.device_pixels_allocated = true →
    s.opencl_framework_available = true ∧ s.DEVICE_PIXELS.isSome = true) ∧
  (s.device_balls_allocated = true →
    s.opencl_framework_available = true ∧ s.DEVICE_BALLS.isSome = true)

/-- Whether the call releases an object that is not valid: one never created,
whose creation failed, or released before. -/
def Event.isBadRelease : Event → Bool
  | .release _ valid => !valid
  | _ => false

/-- The objects a trace creates successfully, in program order. -/
def created_objects (l : List Event) : List Obj :=
  l.filterMap (fun e => match e with
    | .create o _ true => some o
    | _ => none)

/-- The objects a trace releases, in program order. -/
def released_objects (l : List Event) : List Obj :=
  l.filterMap (fun e => match e with
    | .release o _ => some o
    | _ => none)

/-- A step between two framework calls: one of the three functions that
allocate or release, or the host replacing the parameters and the host image
(as `read_args`, `main` and `resize_pixbuf` do). -/
inductive FrameworkCall (F : Type) where
  | allocate_device_pixels
  | allocate_device_balls
  | shutdown_opencl_framework
  | host (params : Params F) (pixbuf : Option Pixbuf)

/-- Run one step. -/
def FrameworkCall.run {F : Type} (env : Env F) (s : State F) : FrameworkCall F → State F
  | .allocate_device_pixels => Particles.allocate_device_pixels env s
  | .allocate_device_balls => Particles.allocate_device_balls env s
  | .shutdown_opencl_framework => Particles.shutdown_opencl_framework s
  | .host params pixbuf => { s with params := params, PIXBUF := pixbuf }

/-- Run `initialize_opencl_framework` and then the steps `calls`. -/
def run_framework {F : Type} (env : Env F) (s : State F) (calls : List (FrameworkCall F)) :
    State F :=
  calls.foldl (FrameworkCall.run env) (initialize_opencl_framework env s)

/-! ## The kernel `update_balls_kernel` -/

/-- One record of the BALLS array. -/
structure Ball where
  x : ℚ
  y : ℚ
  vx : ℚ
  vy : ℚ
deriving DecidableEq, Repr

/-- Modelled from the spec: the wall reflection of one axis (step 4 of
`step_and_splat`; the kernel source `particles_kernel.cl` is not among the
sources).  A coordinate `< R` is set to `R`, one `> dim - R` to `dim - R`, the
matching velocity being negated. -/
def reflect (R dim c v : ℚ) : ℚ × ℚ :=
  if c < R then (R, -v)
  else if c > dim - R then (dim - R, -v)
  else (c, v)

/-- Modelled from the spec: steps 1 to 5 of `step_and_splat` for one ball
(the kernel source `particles_kernel.cl` is not among the sources): integrate
the velocity, apply the dissipation, integrate the position, reflect at the
walls of the `W × H` viewport. -/
def step_ball (W H R FX FY dt D : ℚ) (b : Ball) : Ball :=
  let vx1 := b.vx + FX * dt
  let vy1 := b.vy + FY * dt
  let k := max 0 (1 - D * dt)
  let vx2 := vx1 * k
  let vy2 := vy1 * k
  let x1 := b.x + vx2 * dt
  let y1 := b.y + vy2 * dt
  let rx := reflect R W x1 vx2
  let ry := reflect R H y1 vy2
  { x := rx.1, y := ry.1, vx := rx.2, vy := ry.2 }

/-- Modelled from the spec: the effect of one `step_and_splat` launch on the
BALLS array, one work-item per ball (the kernel source `particles_kernel.cl`
is not among the sources). -/
def step_and_splat (W H R FX FY dt D : ℚ) (balls : List Ball) : List Ball :=
  balls.map (step_ball W H R FX FY dt D)

/-! ## Concrete inputs -/

/-- Decimal fixed-point numbers with two digits behind the point: an
instance of the `float` operations in which the constants of the program are
exact, used to evaluate the definitions on concrete inputs. -/
structure Centi where
  hundredths : Int
deriving DecidableEq, Repr

instance : Add Centi := ⟨fun a b => ⟨a.hundredths + b.hundredths⟩⟩

instance : Sub Centi := ⟨fun a b => ⟨a.hundredths - b.hundredths⟩⟩

instance : OfScientific Centi :=
  ⟨fun m s e => ⟨if s then ((m * 100 / 10 ^ e : Nat) : Int) else ((m * 10 ^ e * 100 : Nat) : Int)⟩⟩

/-- Reads an unsigned decimal numeral. -/
def strtod_digits (v : List Char) : Centi :=
  ⟨((v.foldl (fun acc c => 10 * acc + (c.toNat - 48)) 0 : Nat) : Int) * 100⟩

/-- An environment in which every call on valid objects succeeds and the row
stride is the width times 3 rounded up to a multiple of 4. -/
def env_ok : Env Centi :=
  { cl := fun _ => true, rowstride := fun w => (w * 3 + 3) / 4 * 4,
    strtod := strtod_digits, toInt := fun c => Int.tdiv c.hundredths 100 }

/-- An environment like `env_ok` in which the external call number 19 (counted
from 0) fails: after a start without arguments this is the creation of the
PIXELS buffer by the first resize. -/
def env_resize_fails : Env Centi :=
  { env_ok with cl := fun k => k != 19 }

/-- An environment like `env_ok` in which the runtime refuses every call. -/
def env_fail : Env Centi :=
  { env_ok with cl := fun _ => false }

/-- An environment like `env_ok` in which the very first external call fails
and every later one succeeds. -/
def env_first_fails : Env Centi :=
  { env_ok with cl := fun k => k != 0 }

/-- An environment like `env_ok` in which the external call number 40 (counted
from 0) fails: after a start without arguments and one tick this is the
binding of argument 0 of the fade kernel in the second tick. -/
def env_rebind_fails : Env Centi :=
  { env_ok with cl := fun k => k != 40 }

/-- The state after a successful start: framework up, both buffers
allocated for the default 800 × 800 image. -/
def started : State Centi :=
  { (init_state : State Centi) with
    PIXBUF := some (gdk_pixbuf_new env_ok DEFAULT_WIDTH DEFAULT_HEIGHT),
    opencl_framework_available := true,
    device_pixels_allocated := true, device_balls_allocated := true,
    CONTEXT := true, INIT_KERNEL := true, ALPHA_KERNEL := true,
    BALLS_KERNEL := true, QUEUE := true,
    DEVICE_PIXELS := some 1920000, DEVICE_BALLS := some 1600 }

/-- The globals when `main` enters `gtk_main()` after a start without
arguments in the environment `env_resize_fails`: every call of the startup
succeeded. -/
def after_setup : State Centi :=
  (main_setup env_resize_fails [['p']]).getD init_state

/-! # Theorems -/

/-! ## `keyboard_input` -/

/-- C1 (amended): `keyboard_input` realises the key table on the globals, for
every starting state and with no clamping.  An event that is not a key press
returns FALSE and changes nothing.  Up / Down subtract / add the constant 10
to FY, Left / Right to FX, `a` / `d` subtract / add the constant 0.05 to TRACE,
`r`, `g`, `b` set (R, G, B) to (255,0,0), (0,255,0), (0,0,255) and `i` sets it
to (100,20,237); each of these keys changes nothing else and returns TRUE.
`Q` and `q` leave every parameter as it is, call `gtk_main_quit` and return
TRUE.  Every key other than these twelve leaves the whole state unchanged and
returns FALSE. -/
theorem keyboard_input_key_table {F : Type} [OfScientific F] [Add F] [Sub F] (s : State F) :
    (∀ ev : GdkEventKey, ev.type ≠ GDK_KEY_PRESS → keyboard_input s ev = (false, s)) ∧
    keyboard_input s ⟨GDK_KEY_PRESS, GDK_KEY_Up⟩ =
      (true, { s with params := { s.params with FY := s.params.FY - 10.0 } }) ∧
    keyboard_input s ⟨GDK_KEY_PRESS, GDK_KEY_Down⟩ =
      (true, { s with params := { s.params with FY := s.params.FY + 10.0 } }) ∧
    keyboard_input s ⟨GDK_KEY_PRESS, GDK_KEY_Left⟩ =
      (true, { s with params := { s.params with FX := s.params.FX - 10.0 } }) ∧
    keyboard_input s ⟨GDK_KEY_PRESS, GDK_KEY_Right⟩ =
      (true, { s with params := { s.params with FX := s.params.FX + 10.0 } }) ∧
    keyboard_input s ⟨GDK_KEY_PRESS, GDK_KEY_a⟩ =
      (true, { s with params := { s.params with TRACE := s.params.TRACE - 0.05 } }) ∧
    keyboard_input s ⟨GDK_KEY_PRESS, GDK_KEY_d⟩ =
      (true, { s with params := { s.params with TRACE := s.params.TRACE + 0.05 } }) ∧
    keyboard_input s ⟨GDK_KEY_PRESS, GDK_KEY_r⟩ =
      (true, { s with params := { s.params with R := 255, G := 0, B := 0 } }) ∧
    keyboard_input s ⟨GDK_KEY_PRESS, GDK_KEY_g⟩ =
      (true, { s with params := { s.params with R := 0, G := 255, B := 0 } }) ∧
    keyboard_input s ⟨GDK_KEY_PRESS, GDK_KEY_b⟩ =
      (true, { s with params := { s.params with R := 0, G := 0, B := 255 } }) ∧
    keyboard_input s ⟨GDK_KEY_PRESS, GDK_KEY_i⟩ =
      (true, { s with params := { s.params with R := 100, G := 20, B := 237 } }) ∧
    keyboard_input s ⟨GDK_KEY_PRESS, GDK_KEY_Q⟩ =
      (true, { s with quit := true, trace := s.trace ++ [Event.main_quit] }) ∧
    keyboard_input s ⟨GDK_KEY_PRESS, GDK_KEY_q⟩ =
      (true, { s with quit := true, trace := s.trace ++ [Event.main_quit] }) ∧
    (∀ ev : GdkEventKey,
      ev.keyval ∉ [GDK_KEY_Up, GDK_KEY_Down, GDK_KEY_Left, GDK_KEY_Right, GDK_KEY_a,
        GDK_KEY_d, GDK_KEY_r, GDK_KEY_g, GDK_KEY_b, GDK_KEY_i, GDK_KEY_Q, GDK_KEY_q] →
      keyboard_input s ev = (false, s)) := by
  refine ⟨?_, rfl, rfl, rfl, rfl, rfl, rfl, rfl, rfl, rfl, rfl, rfl, rfl, ?_⟩
  · intro ev h
    simp [keyboard_input, h]
  · intro ev h
    simp only [List.mem_cons, List.mem_singleton, List.not_mem_nil, or_false, not_or] at h
    obtain ⟨h1, h2, h3, h4, h5, h6, h7, h8, h9, h10, h11, h12⟩ := h
    unfold keyboard_input
    simp only [h1, h2, h3, h4, h5, h6, h7, h8, h9, h10, h11, h12, if_false, or_self, ite_self]

/-- Witness of C1 (amended): the key `x` (0x78) pressed in the initial state
is none of the twelve handled keys, so the state is unchanged and the handler
returns FALSE. -/
theorem keyboard_input_key_table_witness :
    keyboard_input (init_state : State Centi) ⟨GDK_KEY_PRESS, 0x78⟩ = (false, init_state) :=
  (keyboard_input_key_table (init_state : State Centi)).2.2.2.2.2.2.2.2.2.2.2.2.2
    ⟨GDK_KEY_PRESS, 0x78⟩ (by decide)

/-- Counterexample to C1 as stated: `q` is none of the ten keys the claim
lists, yet pressing it does not return FALSE: the handler returns TRUE. -/
theorem keyboard_input_q_returns_true :
    GDK_KEY_q ∉ [GDK_KEY_Up, GDK_KEY_Down, GDK_KEY_Left, GDK_KEY_Right, GDK_KEY_a,
      GDK_KEY_d, GDK_KEY_r, GDK_KEY_g, GDK_KEY_b, GDK_KEY_i] ∧
    (keyboard_input (init_state : State Centi) ⟨GDK_KEY_PRESS, GDK_KEY_q⟩).1 = true := by
  decide

/-! ## `read_args` -/

theorem search_args_unknown {F : Type} (strtod : List Char → F) (tok : List Char)
    (ks : List (List Char)) (h : ∀ k ∈ ks, ¬ k <+: tok) (j : Nat) (p : Params F) :
    search_args strtod tok ks j p = (false, p) := by
  induction ks generalizing j with
  | nil => rfl
  | cons k ks ih =>
    have hk : k.isPrefixOf tok = false := by
      have := h k (List.mem_cons_self _ _)
      rw [← List.isPrefixOf_iff_prefix] at this
      exact Bool.eq_false_iff.mpr this
    simp only [search_args, hk, Bool.false_eq_true, if_false]
    exact ih (fun k' hk' => h k' (List.mem_cons_of_mem _ hk')) (j + 1)

/-- With at most seven arguments behind the program name, `read_args` runs
its search loop over them and returns 0. -/
theorem read_args_ok {F : Type} (strtod : List Char → F) (p : Params F)
    (argv : List (List Char)) (h : argv.length ≤ 8) :
    read_args strtod p argv =
      (0, (argv.drop 1).foldl (fun q arg => (search_args strtod arg args 0 q).2) p) := by
  unfold read_args
  have : ¬ ((argv.length : Int) > 7 + 1) := by omega
  simp only [this, if_false]

/-- C2: on a command line of at most seven tokens, a token that begins with
none of the seven keywords does not make `read_args` fail (it returns 0) and
the parameters it leaves are those left by the same command line without that
token. -/
theorem read_args_unknown_token_ignored {F : Type} (strtod : List Char → F) (p : Params F)
    (prog tok : List Char) (pre post : List (List Char))
    (hlen : (pre ++ tok :: post).length ≤ 7)
    (hunknown : ∀ k ∈ args, ¬ k <+: tok) :
    (read_args strtod p (prog :: (pre ++ tok :: post))).1 = 0 ∧
    (read_args strtod p (prog :: (pre ++ tok :: post))).2 =
      (read_args strtod p (prog :: (pre ++ post))).2 := by
  have h1 : (prog :: (pre ++ tok :: post)).length ≤ 8 := by simpa using hlen
  have h2 : (prog :: (pre ++ post)).length ≤ 8 := by
    simp only [List.length_cons, List.length_append] at hlen ⊢; omega
  rw [read_args_ok strtod p _ h1, read_args_ok strtod p _ h2]
  refine ⟨rfl, ?_⟩
  simp only [List.drop_succ_cons, List.drop_zero, List.foldl_append, List.foldl_cons,
    search_args_unknown strtod tok args hunknown]

/-- Witness of C2: the command line `p fx=3 bogus n=5`. -/
theorem read_args_unknown_token_ignored_witness :
    (read_args strtod_digits default_params
        [['p'], ['f', 'x', '=', '3'], ['b', 'o', 'g', 'u', 's'], ['n', '=', '5']]).1 = 0 ∧
    (read_args strtod_digits default_params
        [['p'], ['f', 'x', '=', '3'], ['b', 'o', 'g', 'u', 's'], ['n', '=', '5']]).2 =
      (read_args strtod_digits default_params
        [['p'], ['f', 'x', '=', '3'], ['n', '=', '5']]).2 :=
  read_args_unknown_token_ignored strtod_digits default_params ['p']
    ['b', 'o', 'g', 'u', 's'] [['f', 'x', '=', '3']] [['n', '=', '5']] (by decide) (by decide)

theorem search_args_token {F : Type} (strtod : List Char → F) (j : Nat) (hj : j < 7)
    (v : List Char) (p : Params F) :
    search_args strtod (token (j, v)) args 0 p = (true, args_p j (strtod v) p) := by
  interval_cases j <;> simp [token, args, search_args, List.isPrefixOf]

/-- Reading the tokens of `l` one after the other stores each value through
its pointer. -/
theorem foldl_tokens {F : Type} (strtod : List Char → F) (l : List (Nat × List Char))
    (hkeys : ∀ e ∈ l, e.1 < 7) (p : Params F) :
    (l.map token).foldl (fun q arg => (search_args strtod arg args 0 q).2) p =
      l.foldl (fun q e => args_p e.1 (strtod e.2) q) p := by
  induction l generalizing p with
  | nil => rfl
  | cons e l ih =>
    obtain ⟨j, v⟩ := e
    have hj : j < 7 := hkeys (j, v) (List.mem_cons_self _ _)
    simp only [List.map_cons, List.foldl_cons, search_args_token strtod j hj v]
    exact ih (fun e he => hkeys e (List.mem_cons_of_mem _ he)) _

theorem args_get_args_p_same {F : Type} [OfScientific F] (j : Nat) (hj : j < 7) (x : F)
    (p : Params F) : args_get j (args_p j x p) = x := by
  interval_cases j <;> rfl

theorem args_get_args_p_other {F : Type} [OfScientific F] (i j : Nat) (hij : i ≠ j) (x : F)
    (p : Params F) : args_get j (args_p i x p) = args_get j p := by
  unfold args_get args_p
  split <;> first | rfl | (split <;> first | rfl | omega)

theorem args_p_rest {F : Type} (i : Nat) (x : F) (p : Params F) :
    (args_p i x p).DISSIPATION = p.DISSIPATION ∧ (args_p i x p).R = p.R ∧
    (args_p i x p).G = p.G ∧ (args_p i x p).B = p.B := by
  unfold args_p
  split <;> exact ⟨rfl, rfl, rfl, rfl⟩

/-- After the stores of a list of tokens with pairwise distinct keywords, a
named parameter holds the value of its token and the others are untouched. -/
theorem foldl_args_p {F : Type} [OfScientific F] (strtod : List Char → F)
    (l : List (Nat × List Char)) (hkeys : ∀ e ∈ l, e.1 < 7)
    (hnodup : (l.map Prod.fst).Nodup) (p : Params F) :
    (∀ j v, (j, v) ∈ l →
      args_get j (l.foldl (fun q e => args_p e.1 (strtod e.2) q) p) = strtod v) ∧
    (∀ j, j ∉ l.map Prod.fst →
      args_get j (l.foldl (fun q e => args_p e.1 (strtod e.2) q) p) = args_get j p) ∧
    (l.foldl (fun q e => args_p e.1 (strtod e.2) q) p).DISSIPATION = p.DISSIPATION ∧
    (l.foldl (fun q e => args_p e.1 (strtod e.2) q) p).R = p.R ∧
    (l.foldl (fun q e => args_p e.1 (strtod e.2) q) p).G = p.G ∧
    (l.foldl (fun q e => args_p e.1 (strtod e.2) q) p).B = p.B := by
  induction l generalizing p with
  | nil => simp
  | cons e l ih =>
    obtain ⟨i, x⟩ := e
    have hi : i < 7 := hkeys (i, x) (List.mem_cons_self _ _)
    simp only [List.map_cons, List.nodup_cons] at hnodup
    obtain ⟨hfresh, m, hD, hR, hG, hB⟩ :=
      ih (fun e he => hkeys e (List.mem_cons_of_mem _ he)) hnodup.2 (args_p i (strtod x) p)
    obtain ⟨rD, rR, rG, rB⟩ := args_p_rest i (strtod x) p
    simp only [List.foldl_cons]
    refine ⟨?_, ?_, hD.trans rD, hR.trans rR, hG.trans rG, hB.trans rB⟩
    · intro j v hjv
      rcases List.mem_cons.mp hjv with h | h
      · obtain ⟨rfl, rfl⟩ := Prod.mk.inj h
        rw [m j hnodup.1, args_get_args_p_same j hi]
      · exact hfresh j v h
    · intro j hj
      simp only [List.map_cons, List.mem_cons, not_or] at hj
      rw [m j hj.2, args_get_args_p_other i j (Ne.symm hj.1)]

theorem params_eq_of_fields {F : Type} [OfScientific F] (p q : Params F)
    (h : ∀ j, j < 7 → args_get j p = args_get j q)
    (hD : p.DISSIPATION = q.DISSIPATION) (hR : p.R = q.R) (hG : p.G = q.G) (hB : p.B = q.B) :
    p = q := by
  have h0 := h 0 (by omega)
  have h1 := h 1 (by omega)
  have h2 := h 2 (by omega)
  have h3 := h 3 (by omega)
  have h4 := h 4 (by omega)
  have h5 := h 5 (by omega)
  have h6 := h 6 (by omega)
  cases p; cases q
  simp only [args_get] at h0 h1 h2 h3 h4 h5 h6
  simp_all

/-- C3: take at most seven tokens `key=value` whose keywords are recognised
(index below 7 in `args`) and pairwise distinct, in any order, and run
`read_args` from the default globals.  It returns 0; the parameter named by a
token holds the number read from the token's value; a parameter whose keyword
is missing keeps its default, the defaults being N=100, TRACE=0.15, RADIUS=10,
DELTA=0.04, SPEED=100, FX=0, FY=100; and every permutation of the tokens gives
the same result. -/
theorem read_args_named_and_defaults {F : Type} [OfScientific F] (strtod : List Char → F)
    (prog : List Char) (l : List (Nat × List Char))
    (hkeys : ∀ e ∈ l, e.1 < 7) (hnodup : (l.map Prod.fst).Nodup) (hlen : l.length ≤ 7) :
    (read_args strtod (default_params : Params F) (prog :: l.map token)).1 = 0 ∧
    (∀ j v, (j, v) ∈ l →
      args_get j (read_args strtod (default_params : Params F) (prog :: l.map token)).2
        = strtod v) ∧
    (∀ j, j ∉ l.map Prod.fst →
      args_get j (read_args strtod (default_params : Params F) (prog :: l.map token)).2
        = args_get j (default_params : Params F)) ∧
    (default_params : Params F) =
      { N := 100.0, TRACE := 0.15, RADIUS := 10.0, DELTA := 0.04, INIT_SPEED := 100.0,
        DISSIPATION := 0.0, FX := 0.0, FY := 100.0, R := 100, G := 20, B := 237 } ∧
    (∀ l' : List (Nat × List Char), l'.Perm l →
      read_args strtod (default_params : Params F) (prog :: l'.map token) =
        read_args strtod (default_params : Params F) (prog :: l.map token)) := by
  have key : ∀ l : List (Nat × List Char), (∀ e ∈ l, e.1 < 7) → l.length ≤ 7 →
      read_args strtod (default_params : Params F) (prog :: l.map token) =
        (0, l.foldl (fun q e => args_p e.1 (strtod e.2) q) default_params) := by
    intro l hk hl
    rw [read_args_ok strtod _ _ (by simpa using hl)]
    simp only [List.drop_succ_cons, List.drop_zero, foldl_tokens strtod l hk]
  obtain ⟨hset, hmiss, hD, hR, hG, hB⟩ := foldl_args_p strtod l hkeys hnodup default_params
  rw [key l hkeys hlen]
  refine ⟨rfl, hset, hmiss, rfl, ?_⟩
  intro l' hperm
  have hkeys' : ∀ e ∈ l', e.1 < 7 := fun e he => hkeys e (hperm.mem_iff.mp he)
  have hnodup' : (l'.map Prod.fst).Nodup := (hperm.map Prod.fst).nodup_iff.mpr hnodup
  obtain ⟨hset', hmiss', hD', hR', hG', hB'⟩ :=
    foldl_args_p strtod l' hkeys' hnodup' default_params
  rw [key l' hkeys' (by rw [hperm.length_eq]; exact hlen)]
  congr 1
  apply params_eq_of_fields _ _ _ (hD'.trans hD.symm) (hR'.trans hR.symm)
    (hG'.trans hG.symm) (hB'.trans hB.symm)
  intro j _
  by_cases hj : j ∈ l.map Prod.fst
  · obtain ⟨e, he, rfl⟩ := List.mem_map.mp hj
    rw [hset e.1 e.2 he, hset' e.1 e.2 (hperm.mem_iff.mpr he)]
  · have hj' : j ∉ l'.map Prod.fst := fun h => hj ((hperm.map Prod.fst).mem_iff.mp h)
    rw [hmiss j hj, hmiss' j hj']

/-- Witness of C3: the command line `p fx=3 n=5` sets FX (keyword 1) to the
number read from `3`, sets N and leaves FY (keyword 2) at its default. -/
theorem read_args_named_and_defaults_witness :
    (read_args strtod_digits (default_params : Params Centi)
        [['p'], ['f', 'x', '=', '3'], ['n', '=', '5']]).1 = 0 ∧
    args_get 1 (read_args strtod_digits (default_params : Params Centi)
        [['p'], ['f', 'x', '=', '3'], ['n', '=', '5']]).2 = strtod_digits ['3'] ∧
    args_get 2 (read_args strtod_digits (default_params : Params Centi)
        [['p'], ['f', 'x', '=', '3'], ['n', '=', '5']]).2 = args_get 2 default_params :=
  have h := read_args_named_and_defaults strtod_digits ['p'] [(1, ['3']), (0, ['5'])]
    (by decide) (by decide) (by decide)
  ⟨h.1, h.2.1 1 ['3'] (by decide), h.2.2.1 2 (by decide)⟩

/-- C4 (the code at the failing input): the command line `p bogus` has a
token that matches none of the recognised keywords, and `read_args` returns 0
on it, not -1, leaving the parameters as they were. -/
theorem read_args_unknown_returns_zero :
    (∀ k ∈ args, ¬ k <+: ['b', 'o', 'g', 'u', 's']) ∧
    (read_args strtod_digits (default_params : Params Centi)
      [['p'], ['b', 'o', 'g', 'u', 's']]).1 = 0 ∧
    (read_args strtod_digits (default_params : Params Centi)
      [['p'], ['b', 'o', 'g', 'u', 's']]).1 ≠ -1 ∧
    (read_args strtod_digits (default_params : Params Centi)
      [['p'], ['b', 'o', 'g', 'u', 's']]).2 = default_params := by
  refine ⟨by decide, by decide, by decide, rfl⟩

/-! ## The tick -/

@[simp] theorem emits_nil {F : Type} (s : State F) : s.emits [] = s := by
  simp [State.emits]

@[simp] theorem emits_emits {F : Type} (s : State F) (l₁ l₂ : List Event) :
    (s.emits l₁).emits l₂ = s.emits (l₁ ++ l₂) := by
  simp [State.emits]

theorem emit_eq_emits {F : Type} (s : State F) (e : Event) : s.emit e = s.emits [e] := rfl

@[simp] theorem emits_trace {F : Type} (s : State F) (l : List Event) :
    (s.emits l).trace = s.trace ++ l := rfl

@[simp] theorem emits_params {F : Type} (s : State F) (l : List Event) :
    (s.emits l).params = s.params := rfl

@[simp] theorem emits_PIXBUF {F : Type} (s : State F) (l : List Event) :
    (s.emits l).PIXBUF = s.PIXBUF := rfl

theorem ops_append (l₁ l₂ : List Event) : ops (l₁ ++ l₂) = ops l₁ ++ ops l₂ := by
  simp [ops]

/-- The argument bindings only append `setArg` calls to the trace. -/
theorem set_kernel_args_spec {F : Type} (env : Env F) (k : Obj) (n : Nat) :
    ∀ (i : Nat) (b : Bool) (s : State F),
      ∃ L, (set_kernel_args env k n i (b, s)).2 = s.emits L ∧ ops L = [] := by
  induction n with
  | zero => intro i b s; exact ⟨[], by simp [set_kernel_args], rfl⟩
  | succ n ih =>
    intro i b s
    obtain ⟨L, hL, hops⟩ := ih (i + 1) (b || (clSetKernelArg env s k i).1)
      (clSetKernelArg env s k i).2
    refine ⟨Event.setArg k i (env.outcome s (s.valid k)) :: L, ?_, ?_⟩
    · rw [set_kernel_args, hL]
      simp [clSetKernelArg, emit_eq_emits]
    · simpa [ops, Event.isSetArg] using hops

/-- `alpha` binds its arguments, issues the fade launch and reports the
outcome of the launch. -/
theorem alpha_spec {F : Type} (env : Env F) (s : State F) :
    ∃ L ok, ops L = [] ∧ alpha env s =
      (if ok then 0 else -1,
       s.emits (L ++ [Event.launch Obj.ALPHA_KERNEL
         (to_size_t (int_mul (gdk_pixbuf_get_height s.PIXBUF)
           (gdk_pixbuf_get_rowstride s.PIXBUF))) ok])) := by
  obtain ⟨L, hL, hops⟩ := set_kernel_args_spec env Obj.ALPHA_KERNEL 3 0 false s
  refine ⟨L, env.outcome (s.emits L) ((s.emits L).QUEUE && (s.emits L).valid Obj.ALPHA_KERNEL),
    hops, ?_⟩
  simp only [alpha, hL, clEnqueueNDRangeKernel, emit_eq_emits, emits_emits]
  cases env.outcome (s.emits L) ((s.emits L).QUEUE && (s.emits L).valid Obj.ALPHA_KERNEL) <;> simp

/-- `move_balls` binds its arguments and, unless a binding failed, issues the
step launch and reports its outcome. -/
theorem move_balls_spec {F : Type} (env : Env F) (s : State F) :
    ∃ L, ops L = [] ∧
      (((set_kernel_args env Obj.BALLS_KERNEL 13 0 (false, s)).1 = true ∧
          move_balls env s = (-1, s.emits L)) ∨
       ((set_kernel_args env Obj.BALLS_KERNEL 13 0 (false, s)).1 = false ∧
          ∃ ok, move_balls env s =
            (if ok then 0 else -1,
             s.emits (L ++ [Event.launch Obj.BALLS_KERNEL
               (to_size_t (env.toInt s.params.N)) ok])))) := by
  obtain ⟨L, hL, hops⟩ := set_kernel_args_spec env Obj.BALLS_KERNEL 13 0 false s
  refine ⟨L, hops, ?_⟩
  cases h : (set_kernel_args env Obj.BALLS_KERNEL 13 0 (false, s)).1
  · right
    refine ⟨rfl, env.outcome (s.emits L)
      ((s.emits L).QUEUE && (s.emits L).valid Obj.BALLS_KERNEL), ?_⟩
    simp only [move_balls, h, hL, clEnqueueNDRangeKernel, emit_eq_emits, emits_emits]
    cases env.outcome (s.emits L) ((s.emits L).QUEUE && (s.emits L).valid Obj.BALLS_KERNEL) <;>
      simp
  · left
    refine ⟨rfl, ?_⟩
    simp only [move_balls, h, hL, if_true]

/-- `draw_image` issues the readback and, when it succeeded, the draw. -/
theorem draw_image_spec {F : Type} (env : Env F) (s : State F) :
    ∃ ok : Bool, draw_image env s =
      if ok then
        (0, s.emits [Event.read (size_t_mul (size_t_mul 1
          (to_size_t (gdk_pixbuf_get_height s.PIXBUF)))
          (to_size_t (gdk_pixbuf_get_rowstride s.PIXBUF))) true, Event.draw])
      else
        (-1, s.emits [Event.read (size_t_mul (size_t_mul 1
          (to_size_t (gdk_pixbuf_get_height s.PIXBUF)))
          (to_size_t (gdk_pixbuf_get_rowstride s.PIXBUF))) false]) := by
  refine ⟨!(clEnqueueReadBuffer env s (size_t_mul (size_t_mul 1
          (to_size_t (gdk_pixbuf_get_height s.PIXBUF)))
          (to_size_t (gdk_pixbuf_get_rowstride s.PIXBUF)))).1, ?_⟩
  unfold draw_image clEnqueueReadBuffer
  simp only [emit_eq_emits, emits_emits]
  split <;> simp_all

/-- The five ways a tick can end, with the calls it issues in each. -/
theorem tick_cases {F : Type} (env : Env F) (s : State F) :
    let a := alpha env s
    let m := move_balls env (clFinish a.2)
    let d := draw_image env (clFinish m.2)
    let fade := Event.launch Obj.ALPHA_KERNEL (to_size_t (int_mul
      (gdk_pixbuf_get_height s.PIXBUF) (gdk_pixbuf_get_rowstride s.PIXBUF)))
    let step := Event.launch Obj.BALLS_KERNEL (to_size_t (env.toInt s.params.N))
    let readback := Event.read (size_t_mul (size_t_mul 1
      (to_size_t (gdk_pixbuf_get_height s.PIXBUF)))
      (to_size_t (gdk_pixbuf_get_rowstride s.PIXBUF)))
    let r := update_and_draw_balls env s
    tick_ops env s =
      (if a.1 ≠ 0 then [fade false]
       else if m.1 ≠ 0 then
         (if (set_kernel_args env Obj.BALLS_KERNEL 13 0 (false, clFinish a.2)).1
          then [fade true, Event.finish]
          else [fade true, Event.finish, step false])
       else if d.1 ≠ 0 then [fade true, Event.finish, step true, Event.finish, readback false]
       else [fade true, Event.finish, step true, Event.finish, readback true, Event.draw]) ∧
    (r.1 = true ↔ a.1 = 0 ∧ m.1 = 0 ∧ d.1 = 0) ∧
    (∃ L, r.2 = s.emits L) ∧
    r.2.opencl_framework_available = s.opencl_framework_available ∧
    r.2.device_pixels_allocated = s.device_pixels_allocated ∧
    r.2.device_balls_allocated = s.device_balls_allocated ∧
    r.2.DEVICE_PIXELS = s.DEVICE_PIXELS ∧ r.2.DEVICE_BALLS = s.DEVICE_BALLS := by
  intro a m d fade step readback r
  obtain ⟨LA, okA, hLA, hA⟩ := alpha_spec env s
  have ha : a = _ := hA
  cases okA
  · -- the fade launch failed
    have hr : r = (false, s.emits (LA ++ [fade false])) := by
      simp only [r, update_and_draw_balls, hA]; simp [fade]
    have ha1 : a.1 ≠ 0 := by rw [ha]; simp
    refine ⟨?_, ?_, ⟨_, congrArg Prod.snd hr⟩, ?_⟩
    · simp only [tick_ops]
      show ops (List.drop s.trace.length r.2.trace) = _
      rw [hr]
      simp only [emits_trace, List.drop_left, ops_append, hLA, if_pos ha1]
      rfl
    · rw [hr]; simp [ha1]
    · rw [hr]; exact ⟨rfl, rfl, rfl, rfl, rfl⟩
  · have ha1 : a.1 = 0 := by rw [ha]; simp
    have ha2 : clFinish a.2 = s.emits (LA ++ [fade true, Event.finish]) := by
      rw [ha]; simp [clFinish, emit_eq_emits, fade]
    obtain ⟨LM, hLM, hM⟩ := move_balls_spec env (clFinish a.2)
    rcases hM with ⟨hargs, hM⟩ | ⟨hargs, okM, hM⟩
    · -- a binding of `move_balls` failed
      have hm : m = _ := hM
      have hm1 : m.1 ≠ 0 := by rw [hm]; simp
      have hr : r = (false, s.emits (LA ++ [fade true, Event.finish] ++ LM)) := by
        simp only [r, update_and_draw_balls]
        rw [if_neg (not_not.mpr ha1), if_pos hm1, hM, ha2, emits_emits]
      refine ⟨?_, ?_, ⟨_, congrArg Prod.snd hr⟩, ?_⟩
      · show ops (List.drop s.trace.length r.2.trace) = _
        rw [hr]
        simp only [emits_trace, List.drop_left, ops_append, hLA, hLM,
          if_neg (not_not.mpr ha1), if_pos hm1, hargs, if_true]
        rfl
      · rw [hr]; simp [hm1]
      · rw [hr]; exact ⟨rfl, rfl, rfl, rfl, rfl⟩
    · have hm : m = _ := hM
      rw [ha2] at hm
      simp only [emits_params, emits_emits] at hm
      cases okM
      · -- the step launch failed
        have hm1 : m.1 ≠ 0 := by rw [hm]; simp
        have hr : r = (false, s.emits (LA ++ [fade true, Event.finish] ++
            (LM ++ [step false]))) := by
          simp only [r, update_and_draw_balls]
          rw [if_neg (not_not.mpr ha1), if_pos hm1]
          exact congrArg (fun x => (false, x)) (congrArg Prod.snd hm)
        refine ⟨?_, ?_, ⟨_, congrArg Prod.snd hr⟩, ?_⟩
        · show ops (List.drop s.trace.length r.2.trace) = _
          rw [hr]
          simp only [emits_trace, List.drop_left, ops_append, hLA, hLM,
            if_neg (not_not.mpr ha1), if_pos hm1, hargs]
          rfl
        · rw [hr]; simp [hm1]
        · rw [hr]; exact ⟨rfl, rfl, rfl, rfl, rfl⟩
      · have hm1 : m.1 = 0 := by rw [hm]; simp
        have hm2 : clFinish m.2 = s.emits (LA ++ [fade true, Event.finish] ++
            (LM ++ [step true, Event.finish])) := by
          rw [hm]; simp [clFinish, emit_eq_emits, step]
        obtain ⟨okD, hD⟩ := draw_image_spec env (clFinish m.2)
        have hd : d = _ := hD
        rw [hm2] at hd
        simp only [emits_PIXBUF, emits_emits] at hd
        cases okD
        · -- the readback failed
          have hd1 : d.1 ≠ 0 := by rw [hd]; simp
          have hr : r = (false, s.emits (LA ++ [fade true, Event.finish] ++
              (LM ++ [step true, Event.finish]) ++ [readback false])) := by
            simp only [r, update_and_draw_balls]
            rw [if_neg (not_not.mpr ha1), if_neg (not_not.mpr hm1), if_pos hd1]
            exact congrArg (fun x => (false, x)) (congrArg Prod.snd hd)
          refine ⟨?_, ?_, ⟨_, congrArg Prod.snd hr⟩, ?_⟩
          · show ops (List.drop s.trace.length r.2.trace) = _
            rw [hr]
            simp only [emits_trace, List.drop_left, ops_append, hLA, hLM,
              if_neg (not_not.mpr ha1), if_neg (not_not.mpr hm1), if_pos hd1]
            rfl
          · rw [hr]; simp [hd1]
          · rw [hr]; exact ⟨rfl, rfl, rfl, rfl, rfl⟩
        · have hd1 : d.1 = 0 := by rw [hd]; simp
          have hr : r = (true, s.emits (LA ++ [fade true, Event.finish] ++
              (LM ++ [step true, Event.finish]) ++ [readback true, Event.draw])) := by
            simp only [r, update_and_draw_balls]
            rw [if_neg (not_not.mpr ha1), if_neg (not_not.mpr hm1), if_neg (not_not.mpr hd1)]
            exact congrArg (fun x => (true, x)) (congrArg Prod.snd hd)
          refine ⟨?_, ?_, ⟨_, congrArg Prod.snd hr⟩, ?_⟩
          · show ops (List.drop s.trace.length r.2.trace) = _
            rw [hr]
            simp only [emits_trace, List.drop_left, ops_append, hLA, hLM,
              if_neg (not_not.mpr ha1), if_neg (not_not.mpr hm1), if_neg (not_not.mpr hd1)]
            rfl
          · rw [hr]; simp [ha1, hm1, hd1]
          · rw [hr]; exact ⟨rfl, rfl, rfl, rfl, rfl⟩


example : after_setup.trace.length = 18 ∧ after_setup.device_pixels_allocated = true := by decide
example : Event.create Obj.DEVICE_PIXELS 1920000 false ∈
    (allocate_device_pixels env_resize_fails after_setup).trace.drop after_setup.trace.length := by decide
example : (update_and_draw_balls env_resize_fails after_setup).1 = true := by rfl

@[simp] theorem emits_QUEUE {F : Type} (s : State F) (l : List Event) :
    (s.emits l).QUEUE = s.QUEUE := rfl

@[simp] theorem emits_valid {F : Type} (s : State F) (l : List Event) (o : Obj) :
    (s.emits l).valid o = s.valid o := by
  cases o <;> rfl

@[simp] theorem emits_DEVICE_PIXELS {F : Type} (s : State F) (l : List Event) :
    (s.emits l).DEVICE_PIXELS = s.DEVICE_PIXELS := rfl

@[simp] theorem emits_DEVICE_BALLS {F : Type} (s : State F) (l : List Event) :
    (s.emits l).DEVICE_BALLS = s.DEVICE_BALLS := rfl

@[simp] theorem emits_ALPHA_KERNEL {F : Type} (s : State F) (l : List Event) :
    (s.emits l).ALPHA_KERNEL = s.ALPHA_KERNEL := rfl

@[simp] theorem emits_BALLS_KERNEL {F : Type} (s : State F) (l : List Event) :
    (s.emits l).BALLS_KERNEL = s.BALLS_KERNEL := rfl

@[simp] theorem emits_framework {F : Type} (s : State F) (l : List Event) :
    (s.emits l).opencl_framework_available = s.opencl_framework_available := rfl

@[simp] theorem emits_pixels_flag {F : Type} (s : State F) (l : List Event) :
    (s.emits l).device_pixels_allocated = s.device_pixels_allocated := rfl

@[simp] theorem emits_balls_flag {F : Type} (s : State F) (l : List Event) :
    (s.emits l).device_balls_allocated = s.device_balls_allocated := rfl

@[simp] theorem emits_quit {F : Type} (s : State F) (l : List Event) :
    (s.emits l).quit = s.quit := rfl

/-- When every call on valid objects succeeds, binding the arguments of a
valid kernel reports no error. -/
theorem set_kernel_args_fst_ok {F : Type} (env : Env F) (hcl : ∀ k, env.cl k = true)
    (k : Obj) (n : Nat) :
    ∀ (i : Nat) (b : Bool) (s : State F), s.valid k = true →
      (set_kernel_args env k n i (b, s)).1 = b := by
  induction n with
  | zero => intro i b s _; rfl
  | succ n ih =>
    intro i b s hv
    rw [set_kernel_args]
    have h1 : (clSetKernelArg env s k i).1 = false := by
      simp [clSetKernelArg, Env.outcome, hv, hcl]
    have h2 : (clSetKernelArg env s k i).2.valid k = true := by
      simp [clSetKernelArg, emit_eq_emits, hv]
    rw [ih (i + 1) _ _ h2, h1, Bool.or_false]

/-- With the queue not valid the fade launch is refused. -/
theorem alpha_dead {F : Type} (env : Env F) (s : State F) (hq : s.QUEUE = false) :
    (alpha env s).1 ≠ 0 := by
  obtain ⟨L, hL, _⟩ := set_kernel_args_spec env Obj.ALPHA_KERNEL 3 0 false s
  simp [alpha, hL, clEnqueueNDRangeKernel, Env.outcome, hq]

theorem alpha_ok {F : Type} (env : Env F) (hcl : ∀ k, env.cl k = true) (s : State F)
    (hq : s.QUEUE = true) (hk : s.ALPHA_KERNEL = true) : (alpha env s).1 = 0 := by
  obtain ⟨L, hL, _⟩ := set_kernel_args_spec env Obj.ALPHA_KERNEL 3 0 false s
  simp [alpha, hL, clEnqueueNDRangeKernel, Env.outcome, hq, hcl, State.valid, hk]

theorem alpha_emits {F : Type} (env : Env F) (s : State F) :
    ∃ L, (alpha env s).2 = s.emits L := by
  obtain ⟨L, ok, _, h⟩ := alpha_spec env s
  exact ⟨_, congrArg Prod.snd h⟩

theorem move_balls_emits {F : Type} (env : Env F) (s : State F) :
    ∃ L, (move_balls env s).2 = s.emits L := by
  obtain ⟨L, _, h⟩ := move_balls_spec env s
  rcases h with ⟨_, h⟩ | ⟨_, ok, h⟩
  · exact ⟨_, congrArg Prod.snd h⟩
  · exact ⟨_, congrArg Prod.snd h⟩

theorem move_balls_ok {F : Type} (env : Env F) (hcl : ∀ k, env.cl k = true) (s : State F)
    (hq : s.QUEUE = true) (hk : s.BALLS_KERNEL = true) : (move_balls env s).1 = 0 := by
  obtain ⟨L, hL, _⟩ := set_kernel_args_spec env Obj.BALLS_KERNEL 13 0 false s
  have h1 := set_kernel_args_fst_ok env hcl Obj.BALLS_KERNEL 13 0 false s hk
  simp [move_balls, h1, hL, clEnqueueNDRangeKernel, Env.outcome, hq, hcl, State.valid, hk]

theorem draw_image_ok {F : Type} (env : Env F) (hcl : ∀ k, env.cl k = true) (s : State F)
    (hq : s.QUEUE = true) (size : Nat) (hp : s.DEVICE_PIXELS = some size)
    (hsize : size_t_mul (size_t_mul 1 (to_size_t (gdk_pixbuf_get_height s.PIXBUF)))
      (to_size_t (gdk_pixbuf_get_rowstride s.PIXBUF)) ≤ size) :
    (draw_image env s).1 = 0 := by
  simp [draw_image, clEnqueueReadBuffer, Env.outcome, hq, hcl, hp, hsize]

/-- When every call on valid objects succeeds and the queue, both kernels and
a large enough PIXELS buffer are valid, the three parts of a tick succeed. -/
theorem tick_all_ok {F : Type} (env : Env F) (hcl : ∀ k, env.cl k = true) (s : State F)
    (hq : s.QUEUE = true) (ha : s.ALPHA_KERNEL = true) (hb : s.BALLS_KERNEL = true)
    (size : Nat) (hp : s.DEVICE_PIXELS = some size)
    (hsize : size_t_mul (size_t_mul 1 (to_size_t (gdk_pixbuf_get_height s.PIXBUF)))
      (to_size_t (gdk_pixbuf_get_rowstride s.PIXBUF)) ≤ size) :
    (alpha env s).1 = 0 ∧ (move_balls env (clFinish (alpha env s).2)).1 = 0 ∧
    (draw_image env (clFinish (move_balls env (clFinish (alpha env s).2)).2)).1 = 0 := by
  obtain ⟨LA, hLA⟩ := alpha_emits env s
  obtain ⟨LM, hLM⟩ := move_balls_emits env (clFinish (alpha env s).2)
  refine ⟨alpha_ok env hcl s hq ha, ?_, ?_⟩
  · apply move_balls_ok env hcl
    · rw [hLA]; exact hq
    · rw [hLA]; exact hb
  · apply draw_image_ok env hcl _ _ size
    · rw [hLM, hLA]; exact hp
    · rw [hLM, hLA]; exact hsize
    · rw [hLM, hLA]; exact hq


/-! ## Shutdown and allocation -/

theorem shutdown_eq {F : Type} (s : State F) (h : s.opencl_framework_available = true) :
    shutdown_opencl_framework s =
      { s with
        opencl_framework_available := false
        device_pixels_allocated := false
        device_balls_allocated := false
        CONTEXT := false, INIT_KERNEL := false, ALPHA_KERNEL := false
        BALLS_KERNEL := false, QUEUE := false
        DEVICE_PIXELS := if s.device_pixels_allocated then none else s.DEVICE_PIXELS
        DEVICE_BALLS := if s.device_balls_allocated then none else s.DEVICE_BALLS
        trace := s.trace ++ shutdown_calls s } := by
  cases hp : s.device_pixels_allocated <;> cases hb : s.device_balls_allocated <;>
    simp [shutdown_opencl_framework, shutdown_calls, h, hp, hb, clRelease, State.emit,
      State.assign, State.valid]

theorem shutdown_off {F : Type} (s : State F) (h : s.opencl_framework_available = false) :
    shutdown_opencl_framework s = s := by
  simp [shutdown_opencl_framework, h]

theorem allocate_device_pixels_off {F : Type} (env : Env F) (s : State F)
    (h : s.opencl_framework_available = false) : allocate_device_pixels env s = s := by
  simp [allocate_device_pixels, h]

/-- `allocate_device_pixels` with the framework available: the old buffer is
released when the flag is set, the creation is attempted, and a failure hands
over to `shutdown_opencl_framework`. -/
theorem allocate_device_pixels_on {F : Type} (env : Env F) (s : State F)
    (h : s.opencl_framework_available = true) :
    allocate_device_pixels env s =
      if (s.CONTEXT && env.cl (s.trace.length + (pixels_release s).length)) = true then
        { s with
          device_pixels_allocated := true
          DEVICE_PIXELS := some (pixels_size s.PIXBUF)
          trace := s.trace ++ pixels_release s ++
            [Event.create Obj.DEVICE_PIXELS (pixels_size s.PIXBUF) true] }
      else
        shutdown_opencl_framework { s with
          device_pixels_allocated := false
          DEVICE_PIXELS := none
          trace := s.trace ++ pixels_release s ++
            [Event.create Obj.DEVICE_PIXELS (pixels_size s.PIXBUF) false] } := by
  cases hp : s.device_pixels_allocated
  · cases hc : s.CONTEXT <;> cases he : env.cl (s.trace.length) <;>
      simp [allocate_device_pixels, pixels_release, pixels_size, clCreate, clRelease,
        State.emit, State.assign, State.valid, Env.outcome, h, hp, hc, he]
  · cases hc : s.CONTEXT <;> cases he : env.cl (s.trace.length + 1) <;>
      simp [allocate_device_pixels, pixels_release, pixels_size, clCreate, clRelease,
        State.emit, State.assign, State.valid, Env.outcome, h, hp, hc, he]


theorem allocate_device_balls_off {F : Type} (env : Env F) (s : State F)
    (h : s.opencl_framework_available = false) : allocate_device_balls env s = s := by
  simp [allocate_device_balls, h]

/-- `allocate_device_balls` with the framework available. -/
theorem allocate_device_balls_on {F : Type} (env : Env F) (s : State F)
    (h : s.opencl_framework_available = true) :
    allocate_device_balls env s =
      if (s.CONTEXT && env.cl (s.trace.length + (balls_release s).length)) = true then
        { s with
          device_balls_allocated := true
          DEVICE_BALLS := some (balls_size env s)
          trace := s.trace ++ balls_release s ++
            [Event.create Obj.DEVICE_BALLS (balls_size env s) true] }
      else
        shutdown_opencl_framework { s with
          device_balls_allocated := false
          DEVICE_BALLS := none
          trace := s.trace ++ balls_release s ++
            [Event.create Obj.DEVICE_BALLS (balls_size env s) false] } := by
  cases hp : s.device_balls_allocated
  · cases hc : s.CONTEXT <;> cases he : env.cl (s.trace.length) <;>
      simp [allocate_device_balls, balls_release, balls_size, clCreate, clRelease,
        State.emit, State.assign, State.valid, Env.outcome, h, hp, hc, he]
  · cases hc : s.CONTEXT <;> cases he : env.cl (s.trace.length + 1) <;>
      simp [allocate_device_balls, balls_release, balls_size, clCreate, clRelease,
        State.emit, State.assign, State.valid, Env.outcome, h, hp, hc, he]

theorem to_size_t_lt (x : Int) : to_size_t x < 2 ^ 64 := by
  unfold to_size_t
  omega

theorem read_count_eq_pixels_size (pixbuf : Option Pixbuf) :
    read_count pixbuf = pixels_size pixbuf := by
  unfold read_count pixels_size size_t_mul
  have h1 := to_size_t_lt (gdk_pixbuf_get_height pixbuf)
  have h2 := to_size_t_lt (gdk_pixbuf_get_rowstride pixbuf)
  rw [one_mul, one_mul, Nat.mod_eq_of_lt h1, Nat.mod_eq_of_lt h2, Nat.mul_comm]

/-- Every call a tick makes is an argument binding, a fade or step launch, a
synchronisation, a readback or a draw, and the tick changes nothing but the
trace. -/
theorem tick_calls {F : Type} (env : Env F) (s : State F) :
    ∃ L, (update_and_draw_balls env s).2 = s.emits L ∧ ∀ e ∈ L, e.isTickCall = true := by
  obtain ⟨hops, -, ⟨L, hL⟩, -⟩ := tick_cases env s
  refine ⟨L, hL, ?_⟩
  have hdrop : tick_ops env s = ops L := by
    simp [tick_ops, hL]
  rw [hdrop] at hops
  intro e he
  by_cases hs : e.isSetArg = true
  · cases e <;> simp_all [Event.isSetArg, Event.isTickCall]
  · have hmem : e ∈ ops L := by
      simp only [ops, List.mem_filter]
      exact ⟨he, by simpa using hs⟩
    have hall : (ops L).all Event.isTickCall = true := by
      rw [hops]
      split_ifs <;> rfl
    exact List.all_eq_true.mp hall e hmem


/-! ## Resizing -/

theorem resize_pixbuf_same {F : Type} (env : Env F) (s : State F) (width height : Int)
    (h : ∃ pb, s.PIXBUF = some pb ∧ pb.width = width ∧ pb.height = height) :
    resize_pixbuf env s width height = (false, s) := by
  obtain ⟨pb, hpb, hw, hh⟩ := h
  simp [resize_pixbuf, hpb, hw, hh]

theorem resize_pixbuf_other {F : Type} (env : Env F) (s : State F) (width height : Int)
    (h : ¬ ∃ pb, s.PIXBUF = some pb ∧ pb.width = width ∧ pb.height = height) :
    resize_pixbuf env s width height =
      (true, (update_and_draw_balls env (allocate_device_pixels env
        { s with PIXBUF := some (gdk_pixbuf_new env width height) })).2) := by
  unfold resize_pixbuf
  cases hp : s.PIXBUF with
  | none => simp
  | some pb =>
    have : ¬ (pb.width = width ∧ pb.height = height) := fun hh => h ⟨pb, hp, hh.1, hh.2⟩
    simp [this]

theorem grows_refl (P : Event → Prop) (t : List Event) : Grows P t t :=
  ⟨[], by simp, by simp⟩

theorem grows_trans {P : Event → Prop} {t₁ t₂ t₃ : List Event}
    (h₁ : Grows P t₁ t₂) (h₂ : Grows P t₂ t₃) : Grows P t₁ t₃ := by
  obtain ⟨l₁, rfl, p₁⟩ := h₁
  obtain ⟨l₂, rfl, p₂⟩ := h₂
  refine ⟨l₁ ++ l₂, by simp, ?_⟩
  intro e he
  rcases List.mem_append.mp he with h | h
  · exact p₁ e h
  · exact p₂ e h

theorem grows_mono {P Q : Event → Prop} {t t' : List Event} (h : ∀ e, P e → Q e)
    (g : Grows P t t') : Grows Q t t' := by
  obtain ⟨l, rfl, p⟩ := g
  exact ⟨l, rfl, fun e he => h e (p e he)⟩

/-- What `Grows` says about the calls behind the old trace. -/
theorem grows_drop {P : Event → Prop} {t t' : List Event} (g : Grows P t t') :
    ∀ e ∈ t'.drop t.length, P e := by
  obtain ⟨l, rfl, p⟩ := g
  simpa using p

theorem shutdown_calls_release {F : Type} (s : State F) :
    ∀ e ∈ shutdown_calls s, e.isRelease = true := by
  have hall : (shutdown_calls s).all Event.isRelease = true := by
    unfold shutdown_calls
    split_ifs <;> rfl
  exact fun e he => List.all_eq_true.mp hall e he

theorem pixels_release_release {F : Type} (s : State F) :
    ∀ e ∈ pixels_release s, e.isRelease = true := by
  have hall : (pixels_release s).all Event.isRelease = true := by
    unfold pixels_release
    split_ifs <;> rfl
  exact fun e he => List.all_eq_true.mp hall e he

theorem balls_release_release {F : Type} (s : State F) :
    ∀ e ∈ balls_release s, e.isRelease = true := by
  have hall : (balls_release s).all Event.isRelease = true := by
    unfold balls_release
    split_ifs <;> rfl
  exact fun e he => List.all_eq_true.mp hall e he

/-- `shutdown_opencl_framework` only releases, and leaves the parameters and
the host image alone. -/
theorem shutdown_grows {F : Type} {P : Event → Prop}
    (hrel : ∀ e, e.isRelease = true → P e) (s : State F) :
    Grows P s.trace (shutdown_opencl_framework s).trace ∧
    (shutdown_opencl_framework s).params = s.params ∧
    (shutdown_opencl_framework s).PIXBUF = s.PIXBUF ∧
    (shutdown_opencl_framework s).quit = s.quit := by
  cases h : s.opencl_framework_available
  · rw [shutdown_off s h]
    exact ⟨grows_refl _ _, rfl, rfl, rfl⟩
  · rw [shutdown_eq s h]
    exact ⟨⟨_, rfl, fun e he => hrel e (shutdown_calls_release s e he)⟩, rfl, rfl, rfl⟩

/-- `allocate_device_pixels` only releases and creates the PIXELS buffer, and
leaves the parameters and the host image alone. -/
theorem allocate_device_pixels_grows {F : Type} {P : Event → Prop}
    (hrel : ∀ e, e.isRelease = true → P e)
    (hcre : ∀ size ok, P (Event.create Obj.DEVICE_PIXELS size ok))
    (env : Env F) (s : State F) :
    Grows P s.trace (allocate_device_pixels env s).trace ∧
    (allocate_device_pixels env s).params = s.params ∧
    (allocate_device_pixels env s).PIXBUF = s.PIXBUF ∧
    (allocate_device_pixels env s).quit = s.quit := by
  cases h : s.opencl_framework_available
  · rw [allocate_device_pixels_off env s h]
    exact ⟨grows_refl _ _, rfl, rfl, rfl⟩
  · rw [allocate_device_pixels_on env s h]
    have hstep : ∀ ok, Grows P s.trace (s.trace ++ pixels_release s ++
        [Event.create Obj.DEVICE_PIXELS (pixels_size s.PIXBUF) ok]) := by
      intro ok
      refine ⟨pixels_release s ++ [Event.create Obj.DEVICE_PIXELS (pixels_size s.PIXBUF) ok],
        by simp, ?_⟩
      intro e he
      rcases List.mem_append.mp he with h1 | h1
      · exact hrel e (pixels_release_release s e h1)
      · rw [List.mem_singleton.mp h1]; exact hcre _ _
    split
    · exact ⟨hstep true, rfl, rfl, rfl⟩
    · obtain ⟨g, hp, hb, hq⟩ := shutdown_grows hrel { s with
        device_pixels_allocated := false
        DEVICE_PIXELS := none
        trace := s.trace ++ pixels_release s ++
          [Event.create Obj.DEVICE_PIXELS (pixels_size s.PIXBUF) false] }
      exact ⟨grows_trans (hstep false) g, hp, hb, hq⟩

/-- `allocate_device_balls` only releases and creates the BALLS buffer. -/
theorem allocate_device_balls_grows {F : Type} {P : Event → Prop}
    (hrel : ∀ e, e.isRelease = true → P e)
    (hcre : ∀ size ok, P (Event.create Obj.DEVICE_BALLS size ok))
    (env : Env F) (s : State F) :
    Grows P s.trace (allocate_device_balls env s).trace ∧
    (allocate_device_balls env s).params = s.params ∧
    (allocate_device_balls env s).PIXBUF = s.PIXBUF ∧
    (allocate_device_balls env s).quit = s.quit := by
  cases h : s.opencl_framework_available
  · rw [allocate_device_balls_off env s h]
    exact ⟨grows_refl _ _, rfl, rfl, rfl⟩
  · rw [allocate_device_balls_on env s h]
    have hstep : ∀ ok, Grows P s.trace (s.trace ++ balls_release s ++
        [Event.create Obj.DEVICE_BALLS (balls_size env s) ok]) := by
      intro ok
      refine ⟨balls_release s ++ [Event.create Obj.DEVICE_BALLS (balls_size env s) ok],
        by simp, ?_⟩
      intro e he
      rcases List.mem_append.mp he with h1 | h1
      · exact hrel e (balls_release_release s e h1)
      · rw [List.mem_singleton.mp h1]; exact hcre _ _
    split
    · exact ⟨hstep true, rfl, rfl, rfl⟩
    · obtain ⟨g, hp, hb, hq⟩ := shutdown_grows hrel { s with
        device_balls_allocated := false
        DEVICE_BALLS := none
        trace := s.trace ++ balls_release s ++
          [Event.create Obj.DEVICE_BALLS (balls_size env s) false] }
      exact ⟨grows_trans (hstep false) g, hp, hb, hq⟩

/-- A tick only makes tick calls, and leaves everything but the trace alone. -/
theorem tick_grows {F : Type} {P : Event → Prop}
    (htick : ∀ e, e.isTickCall = true → P e) (env : Env F) (s : State F) :
    Grows P s.trace (update_and_draw_balls env s).2.trace ∧
    (update_and_draw_balls env s).2.params = s.params ∧
    (update_and_draw_balls env s).2.PIXBUF = s.PIXBUF ∧
    (update_and_draw_balls env s).2.quit = s.quit := by
  obtain ⟨L, hL, hall⟩ := tick_calls env s
  rw [hL]
  exact ⟨⟨L, rfl, fun e he => htick e (hall e he)⟩, rfl, rfl, rfl⟩

/-- `resize_pixbuf` makes the calls of `allocate_device_pixels` and of one
tick, and leaves the parameters alone. -/
theorem resize_pixbuf_grows {F : Type} {P : Event → Prop}
    (hrel : ∀ e, e.isRelease = true → P e)
    (hcre : ∀ size ok, P (Event.create Obj.DEVICE_PIXELS size ok))
    (htick : ∀ e, e.isTickCall = true → P e)
    (env : Env F) (s : State F) (width height : Int) :
    Grows P s.trace (resize_pixbuf env s width height).2.trace ∧
    (resize_pixbuf env s width height).2.params = s.params ∧
    (resize_pixbuf env s width height).2.quit = s.quit := by
  by_cases h : ∃ pb, s.PIXBUF = some pb ∧ pb.width = width ∧ pb.height = height
  · rw [resize_pixbuf_same env s width height h]
    exact ⟨grows_refl _ _, rfl, rfl⟩
  · rw [resize_pixbuf_other env s width height h]
    obtain ⟨g1, p1, -, q1⟩ := allocate_device_pixels_grows hrel hcre env
      { s with PIXBUF := some (gdk_pixbuf_new env width height) }
    obtain ⟨g2, p2, -, q2⟩ := tick_grows htick env (allocate_device_pixels env
      { s with PIXBUF := some (gdk_pixbuf_new env width height) })
    exact ⟨grows_trans g1 g2, p2.trans p1, q2.trans q1⟩


/-- C6 (amended): `resize_pixbuf` called with the size the image already has
is a no-op: it returns FALSE and changes nothing.  For every other size it
returns TRUE, replaces the host image by one of the new size, calls
`allocate_device_pixels` and then `update_and_draw_balls` once.  With the
framework unavailable PIXELS is neither released nor created and the calls
made are those of one tick.  With the framework available, the PIXELS flag
set, context, queue and kernels valid and every runtime call succeeding, the
calls are: release PIXELS, create PIXELS with the size of the new image, and
one full tick (fade, synchronise, step, synchronise, readback, draw).  In all
cases the parameters (so N) are unchanged and no call creates the BALLS
buffer or launches the `init` kernel. -/
theorem resize_pixbuf_effect {F : Type} (env : Env F) (s : State F) (width height : Int) :
    let r := resize_pixbuf env s width height
    let image := some (gdk_pixbuf_new env width height)
    let new := r.2.trace.drop s.trace.length
    ((∃ pb, s.PIXBUF = some pb ∧ pb.width = width ∧ pb.height = height) → r = (false, s)) ∧
    ((¬ ∃ pb, s.PIXBUF = some pb ∧ pb.width = width ∧ pb.height = height) →
      r.1 = true ∧ r.2.PIXBUF = image ∧
      r.2 = (update_and_draw_balls env
        (allocate_device_pixels env { s with PIXBUF := image })).2 ∧
      (s.opencl_framework_available = false →
        r.2.DEVICE_PIXELS = s.DEVICE_PIXELS ∧ r.2.DEVICE_BALLS = s.DEVICE_BALLS ∧
        ops new = tick_ops env { s with PIXBUF := image }) ∧
      (s.opencl_framework_available = true → s.device_pixels_allocated = true →
        s.CONTEXT = true → s.QUEUE = true → s.ALPHA_KERNEL = true → s.BALLS_KERNEL = true →
        (∀ k, env.cl k = true) →
        r.2.DEVICE_PIXELS = some (pixels_size image) ∧ r.2.device_pixels_allocated = true ∧
        r.2.DEVICE_BALLS = s.DEVICE_BALLS ∧
        ops new =
          [Event.release Obj.DEVICE_PIXELS s.DEVICE_PIXELS.isSome,
           Event.create Obj.DEVICE_PIXELS (pixels_size image) true,
           Event.launch Obj.ALPHA_KERNEL (fade_count image) true, Event.finish,
           Event.launch Obj.BALLS_KERNEL (to_size_t (env.toInt s.params.N)) true, Event.finish,
           Event.read (read_count image) true, Event.draw])) ∧
    r.2.params = s.params ∧
    (∀ e ∈ new, e.isBallsSeed = false) := by
  intro r image new
  refine ⟨resize_pixbuf_same env s width height, ?_, ?_, ?_⟩
  · intro hne
    have hr : r = _ := resize_pixbuf_other env s width height hne
    refine ⟨by rw [hr], ?_, by rw [hr], ?_, ?_⟩
    · rw [hr]
      obtain ⟨-, -, h1, -⟩ := allocate_device_pixels_grows (P := fun _ => True)
        (fun _ _ => trivial) (fun _ _ => trivial) env { s with PIXBUF := image }
      obtain ⟨-, -, h2, -⟩ := tick_grows (P := fun _ => True) (fun _ _ => trivial) env
        (allocate_device_pixels env { s with PIXBUF := image })
      exact h2.trans h1
    · intro hoff
      have hs1 : allocate_device_pixels env { s with PIXBUF := image } =
          { s with PIXBUF := image } := allocate_device_pixels_off env _ hoff
      obtain ⟨L, hL, -⟩ := tick_calls env { s with PIXBUF := image }
      have hr2 : r.2 = ({ s with PIXBUF := image } : State F).emits L := by
        rw [hr, hs1]; exact hL
      refine ⟨by rw [hr2]; rfl, by rw [hr2]; rfl, ?_⟩
      simp only [new, tick_ops, hr2, hL]
    · intro hon hflag hctx hq hak hbk hcl
      have hs2 := allocate_device_pixels_on env { s with PIXBUF := image } hon
      have hrel : pixels_release ({ s with PIXBUF := image } : State F) =
          [Event.release Obj.DEVICE_PIXELS s.DEVICE_PIXELS.isSome] := by
        simp [pixels_release, hflag]
      rw [if_pos (by simp [hctx, hcl])] at hs2
      simp only [hrel] at hs2
      obtain ⟨ha, hm, hd⟩ := tick_all_ok env hcl
        (allocate_device_pixels env { s with PIXBUF := image })
        (by rw [hs2]; exact hq) (by rw [hs2]; exact hak) (by rw [hs2]; exact hbk)
        (pixels_size image) (by rw [hs2])
        (by rw [hs2]; exact le_of_eq (read_count_eq_pixels_size image))
      obtain ⟨hops, -, ⟨L, hL⟩, -⟩ := tick_cases env
        (allocate_device_pixels env { s with PIXBUF := image })
      simp only [ha, hm, hd, ne_eq, not_true_eq_false, if_false] at hops
      have hopsL : tick_ops env (allocate_device_pixels env { s with PIXBUF := image })
          = ops L := by
        simp [tick_ops, hL]
      have hr2 : r.2 = (allocate_device_pixels env { s with PIXBUF := image }).emits L := by
        rw [hr]; exact hL
      rw [hopsL] at hops
      refine ⟨by rw [hr2, hs2]; rfl, by rw [hr2, hs2]; rfl, by rw [hr2, hs2]; rfl, ?_⟩
      have hnew : new = [Event.release Obj.DEVICE_PIXELS s.DEVICE_PIXELS.isSome,
          Event.create Obj.DEVICE_PIXELS (pixels_size image) true] ++ L := by
        simp only [new, hr2, hs2]
        simp [State.emits]
      rw [hnew, ops_append, hops, hs2]
      rfl
  · obtain ⟨-, hp, -⟩ := resize_pixbuf_grows (P := fun _ => True) (fun _ _ => trivial)
      (fun _ _ => trivial) (fun _ _ => trivial) env s width height
    exact hp
  · apply grows_drop
    refine (resize_pixbuf_grows (P := fun e => e.isBallsSeed = false) ?_ ?_ ?_
      env s width height).1
    · intro e he; cases e <;> simp_all [Event.isRelease, Event.isBallsSeed]
    · intro size ok; rfl
    · intro e he
      cases e with
      | launch k size ok => cases k <;> simp_all [Event.isTickCall, Event.isBallsSeed]
      | create o size ok => simp [Event.isTickCall] at he
      | _ => rfl


/-- Witness of C6 (amended): the started program resized to 400 × 400. -/
theorem resize_pixbuf_effect_witness :
    (resize_pixbuf env_ok started 400 400).2.DEVICE_PIXELS = some 480000 ∧
    (resize_pixbuf env_ok started 400 400).2.device_pixels_allocated = true ∧
    (resize_pixbuf env_ok started 400 400).2.DEVICE_BALLS = some 1600 ∧
    ops ((resize_pixbuf env_ok started 400 400).2.trace.drop started.trace.length) =
      [Event.release Obj.DEVICE_PIXELS true,
       Event.create Obj.DEVICE_PIXELS 480000 true,
       Event.launch Obj.ALPHA_KERNEL 480000 true, Event.finish,
       Event.launch Obj.BALLS_KERNEL 100 true, Event.finish,
       Event.read 480000 true, Event.draw] :=
  ((resize_pixbuf_effect env_ok started 400 400).2.1
    (by simp [started, gdk_pixbuf_new, DEFAULT_WIDTH])).2.2.2.2
    rfl rfl rfl rfl rfl rfl (fun _ => rfl)

/-- Counterexample to C6 as stated: start the program without arguments in an
environment where the buffer creation of the first resize fails, and resize
the 800 × 800 window to 400 × 400.  `resize_pixbuf` returns TRUE but PIXELS is
not reallocated (the handle is invalid, the flag cleared), and of the tick
only the refused fade launch is made: no step launch, no readback. -/
theorem resize_pixbuf_creation_fails :
    (main_setup env_resize_fails [['p']]).map (fun s =>
      (gdk_pixbuf_get_width s.PIXBUF, gdk_pixbuf_get_height s.PIXBUF,
       s.device_pixels_allocated,
       (resize_pixbuf env_resize_fails s 400 400).1,
       (resize_pixbuf env_resize_fails s 400 400).2.DEVICE_PIXELS,
       (resize_pixbuf env_resize_fails s 400 400).2.device_pixels_allocated,
       ops ((resize_pixbuf env_resize_fails s 400 400).2.trace.drop s.trace.length))) =
    some (800, 800, true, true, none, false,
      [Event.release Obj.DEVICE_PIXELS true,
       Event.create Obj.DEVICE_PIXELS 480000 false,
       Event.release Obj.BALLS_KERNEL true,
       Event.release Obj.ALPHA_KERNEL true,
       Event.release Obj.INIT_KERNEL true,
       Event.release Obj.QUEUE true,
       Event.release Obj.CONTEXT true,
       Event.release Obj.DEVICE_BALLS true,
       Event.launch Obj.ALPHA_KERNEL 480000 false]) := by
  rfl

/-! ## After an allocation failure -/

/-- `keyboard_input` either changes parameters only or calls
`gtk_main_quit`. -/
theorem keyboard_input_frame {F : Type} [OfScientific F] [Add F] [Sub F]
    (s : State F) (ev : GdkEventKey) :
    (∃ p : Params F, (keyboard_input s ev).2 = { s with params := p }) ∨
    (keyboard_input s ev).2 = gtk_main_quit s := by
  unfold keyboard_input
  by_cases h0 : ev.type ≠ GDK_KEY_PRESS
  · rw [if_pos h0]; exact Or.inl ⟨_, rfl⟩
  rw [if_neg h0]
  by_cases hUp : ev.keyval = GDK_KEY_Up
  · rw [if_pos hUp]; exact Or.inl ⟨_, rfl⟩
  rw [if_neg hUp]
  by_cases hDown : ev.keyval = GDK_KEY_Down
  · rw [if_pos hDown]; exact Or.inl ⟨_, rfl⟩
  rw [if_neg hDown]
  by_cases hLeft : ev.keyval = GDK_KEY_Left
  · rw [if_pos hLeft]; exact Or.inl ⟨_, rfl⟩
  rw [if_neg hLeft]
  by_cases hRight : ev.keyval = GDK_KEY_Right
  · rw [if_pos hRight]; exact Or.inl ⟨_, rfl⟩
  rw [if_neg hRight]
  by_cases ha : ev.keyval = GDK_KEY_a
  · rw [if_pos ha]; exact Or.inl ⟨_, rfl⟩
  rw [if_neg ha]
  by_cases hd : ev.keyval = GDK_KEY_d
  · rw [if_pos hd]; exact Or.inl ⟨_, rfl⟩
  rw [if_neg hd]
  by_cases hr : ev.keyval = GDK_KEY_r
  · rw [if_pos hr]; exact Or.inl ⟨_, rfl⟩
  rw [if_neg hr]
  by_cases hg : ev.keyval = GDK_KEY_g
  · rw [if_pos hg]; exact Or.inl ⟨_, rfl⟩
  rw [if_neg hg]
  by_cases hb : ev.keyval = GDK_KEY_b
  · rw [if_pos hb]; exact Or.inl ⟨_, rfl⟩
  rw [if_neg hb]
  by_cases hi : ev.keyval = GDK_KEY_i
  · rw [if_pos hi]; exact Or.inl ⟨_, rfl⟩
  rw [if_neg hi]
  by_cases hq : ev.keyval = GDK_KEY_Q ∨ ev.keyval = GDK_KEY_q
  · rw [if_pos hq]; exact Or.inr rfl
  · rw [if_neg hq]; exact Or.inl ⟨_, rfl⟩

/-- With the queue not valid a tick stops at the refused fade launch. -/
theorem tick_down {F : Type} (env : Env F) (s : State F) (hq : s.QUEUE = false) :
    ∃ L, update_and_draw_balls env s = (false, s.emits L) ∧
      ∀ e ∈ L, e.isEnqueued = false := by
  obtain ⟨hops, hret, ⟨L, hL⟩, -⟩ := tick_cases env s
  have ha := alpha_dead env s hq
  rw [if_pos ha] at hops
  have h1 : (update_and_draw_balls env s).1 = false := by
    cases h : (update_and_draw_balls env s).1
    · rfl
    · exact absurd (hret.mp h).1 ha
  refine ⟨L, Prod.ext h1 hL, ?_⟩
  have hdrop : tick_ops env s = ops L := by simp [tick_ops, hL]
  rw [hdrop] at hops
  intro e he
  by_cases hs : e.isSetArg = true
  · cases e <;> simp_all [Event.isSetArg, Event.isEnqueued]
  · have hmem : e ∈ ops L := by
      simp only [ops, List.mem_filter]
      exact ⟨he, by simpa using hs⟩
    rw [hops, List.mem_singleton] at hmem
    rw [hmem]; rfl

theorem down_dispatch {F : Type} [OfScientific F] [Add F] [Sub F] (env : Env F)
    (r : State F × Bool) (ev : GtkEvent) (hd : Down r.1) :
    Down (gtk_dispatch env r ev).1 ∧
    Grows (fun e => e.isEnqueued = false) r.1.trace (gtk_dispatch env r ev).1.trace := by
  obtain ⟨hq, hf, hp, hb⟩ := hd
  cases ev with
  | timeout =>
    obtain ⟨L, hL, hall⟩ := tick_down env r.1 hq
    simp only [gtk_dispatch]
    split_ifs
    · exact ⟨⟨hq, hf, hp, hb⟩, grows_refl _ _⟩
    · rw [hL]; exact ⟨⟨hq, hf, hp, hb⟩, ⟨L, rfl, hall⟩⟩
    · exact ⟨⟨hq, hf, hp, hb⟩, grows_refl _ _⟩
  | key_press_event event =>
    simp only [gtk_dispatch]
    split_ifs
    · exact ⟨⟨hq, hf, hp, hb⟩, grows_refl _ _⟩
    · rcases keyboard_input_frame r.1 event with ⟨p, hk⟩ | hk
      · rw [hk]; exact ⟨⟨hq, hf, hp, hb⟩, grows_refl _ _⟩
      · rw [hk]
        exact ⟨⟨hq, hf, hp, hb⟩, ⟨[Event.main_quit], rfl, by simp [Event.isEnqueued]⟩⟩
  | configure_event width height =>
    simp only [gtk_dispatch]
    split_ifs
    · exact ⟨⟨hq, hf, hp, hb⟩, grows_refl _ _⟩
    · by_cases h : ∃ pb, r.1.PIXBUF = some pb ∧ pb.width = width ∧ pb.height = height
      · rw [resize_pixbuf_same env r.1 width height h]
        exact ⟨⟨hq, hf, hp, hb⟩, grows_refl _ _⟩
      · rw [resize_pixbuf_other env r.1 width height h,
          allocate_device_pixels_off env
            { r.1 with PIXBUF := some (gdk_pixbuf_new env width height) } hf]
        obtain ⟨L, hL, hall⟩ := tick_down env
          { r.1 with PIXBUF := some (gdk_pixbuf_new env width height) } hq
        rw [hL]
        exact ⟨⟨hq, hf, hp, hb⟩, ⟨L, rfl, hall⟩⟩
  | destroy =>
    simp only [gtk_dispatch]
    split_ifs
    · exact ⟨⟨hq, hf, hp, hb⟩, grows_refl _ _⟩
    · exact ⟨⟨hq, hf, hp, hb⟩, ⟨[Event.main_quit], rfl, by simp [Event.isEnqueued]⟩⟩

theorem down_run {F : Type} [OfScientific F] [Add F] [Sub F] (env : Env F)
    (evs : List GtkEvent) : ∀ (r : State F × Bool), Down r.1 →
    Down (evs.foldl (gtk_dispatch env) r).1 ∧
    Grows (fun e => e.isEnqueued = false) r.1.trace
      (evs.foldl (gtk_dispatch env) r).1.trace := by
  induction evs with
  | nil => intro r hd; exact ⟨hd, grows_refl _ _⟩
  | cons ev evs ih =>
    intro r hd
    obtain ⟨hd1, g1⟩ := down_dispatch env r ev hd
    obtain ⟨hd2, g2⟩ := ih (gtk_dispatch env r ev) hd1
    exact ⟨hd2, grows_trans g1 g2⟩


/-- A failed creation in `allocate_device_pixels` leads to the shutdown. -/
theorem allocate_device_pixels_failed {F : Type} (env : Env F) (s : State F) (size : Nat)
    (h : Event.create Obj.DEVICE_PIXELS size false ∈
      (allocate_device_pixels env s).trace.drop s.trace.length) :
    Down (allocate_device_pixels env s) ∧
    (allocate_device_pixels env s).CONTEXT = false ∧
    (allocate_device_pixels env s).INIT_KERNEL = false ∧
    (allocate_device_pixels env s).ALPHA_KERNEL = false ∧
    (allocate_device_pixels env s).BALLS_KERNEL = false := by
  cases hf : s.opencl_framework_available
  · rw [allocate_device_pixels_off env s hf] at h
    simp at h
  · rw [allocate_device_pixels_on env s hf] at h ⊢
    split_ifs at h ⊢ with hok
    · exfalso
      simp only [List.append_assoc, List.drop_left, List.mem_append, List.mem_singleton] at h
      rcases h with h | h
      · have := pixels_release_release s _ h
        simp [Event.isRelease] at this
      · simp at h
    · rw [shutdown_eq { s with
        device_pixels_allocated := false
        DEVICE_PIXELS := none
        trace := s.trace ++ pixels_release s ++
          [Event.create Obj.DEVICE_PIXELS (pixels_size s.PIXBUF) false] } hf]
      exact ⟨⟨rfl, rfl, rfl, rfl⟩, rfl, rfl, rfl, rfl⟩

/-- A failed creation in `allocate_device_balls` leads to the shutdown. -/
theorem allocate_device_balls_failed {F : Type} (env : Env F) (s : State F) (size : Nat)
    (h : Event.create Obj.DEVICE_BALLS size false ∈
      (allocate_device_balls env s).trace.drop s.trace.length) :
    Down (allocate_device_balls env s) ∧
    (allocate_device_balls env s).CONTEXT = false ∧
    (allocate_device_balls env s).INIT_KERNEL = false ∧
    (allocate_device_balls env s).ALPHA_KERNEL = false ∧
    (allocate_device_balls env s).BALLS_KERNEL = false := by
  cases hf : s.opencl_framework_available
  · rw [allocate_device_balls_off env s hf] at h
    simp at h
  · rw [allocate_device_balls_on env s hf] at h ⊢
    split_ifs at h ⊢ with hok
    · exfalso
      simp only [List.append_assoc, List.drop_left, List.mem_append, List.mem_singleton] at h
      rcases h with h | h
      · have := balls_release_release s _ h
        simp [Event.isRelease] at this
      · simp at h
    · rw [shutdown_eq { s with
        device_balls_allocated := false
        DEVICE_BALLS := none
        trace := s.trace ++ balls_release s ++
          [Event.create Obj.DEVICE_BALLS (balls_size env s) false] } hf]
      exact ⟨⟨rfl, rfl, rfl, rfl⟩, rfl, rfl, rfl, rfl⟩

theorem ops_nil_not_enqueued (L : List Event) (h : ops L = []) :
    ∀ e ∈ L, e.isEnqueued = false := by
  intro e he
  by_cases hs : e.isSetArg = true
  · cases e <;> simp_all [Event.isSetArg, Event.isEnqueued]
  · have hmem : e ∈ ops L := by
      simp only [ops, List.mem_filter]
      exact ⟨he, by simpa using hs⟩
    rw [h] at hmem
    simp at hmem

/-- With the queue not valid `randomize_balls` puts nothing on the device. -/
theorem randomize_balls_down {F : Type} (env : Env F) (s : State F) (hq : s.QUEUE = false) :
    ∃ L, randomize_balls env s = s.emits L ∧ ∀ e ∈ L, e.isEnqueued = false := by
  obtain ⟨L, hL, hops⟩ := set_kernel_args_spec env Obj.INIT_KERNEL 6 0 false s
  have hall := ops_nil_not_enqueued L hops
  unfold randomize_balls
  simp only [hL]
  split_ifs
  · exact ⟨L, rfl, hall⟩
  · refine ⟨L ++ [Event.launch Obj.INIT_KERNEL (to_size_t (env.toInt s.params.N)) false,
      Event.finish], ?_, ?_⟩
    · simp [clFinish, clEnqueueNDRangeKernel, Env.outcome, emit_eq_emits, hq]
    · intro e he
      rcases List.mem_append.mp he with h | h
      · exact hall e h
      · simp at h
        rcases h with rfl | rfl <;> rfl

/-- With the queue not valid the readback of `draw_image` is refused. -/
theorem draw_image_down {F : Type} (env : Env F) (s : State F) (hq : s.QUEUE = false) :
    ∃ L, (draw_image env s).2 = s.emits L ∧ ∀ e ∈ L, e.isEnqueued = false := by
  refine ⟨[Event.read (read_count s.PIXBUF) false], ?_, ?_⟩
  · simp [draw_image, clEnqueueReadBuffer, Env.outcome, emit_eq_emits, hq, read_count]
  · intro e he
    rw [List.mem_singleton.mp he]; rfl

/-- The rest of the startup behind a failed allocation puts nothing on the
device and leaves the framework down. -/
theorem startup_rest_down {F : Type} (env : Env F) (s : State F) (hd : Down s) :
    Down (draw_image env (randomize_balls env (allocate_device_balls env s))).2 ∧
    Grows (fun e => e.isEnqueued = false) s.trace
      (draw_image env (randomize_balls env (allocate_device_balls env s))).2.trace := by
  rw [allocate_device_balls_off env s hd.2.1]
  obtain ⟨L1, h1, a1⟩ := randomize_balls_down env s hd.1
  rw [h1]
  obtain ⟨L2, h2, a2⟩ := draw_image_down env (s.emits L1) hd.1
  rw [h2]
  refine ⟨hd, ⟨L1 ++ L2, by simp, ?_⟩⟩
  intro e he
  rcases List.mem_append.mp he with h | h
  · exact a1 e h
  · exact a2 e h

/-- What a failed creation in `allocate_device_pixels` leaves: the calls made,
and which objects they release. -/
theorem allocate_device_pixels_failed_calls {F : Type} (env : Env F) (s : State F) (size : Nat)
    (h : Event.create Obj.DEVICE_PIXELS size false ∈
      (allocate_device_pixels env s).trace.drop s.trace.length) :
    (allocate_device_pixels env s).DEVICE_PIXELS = none ∧
    (s.device_balls_allocated = true → (allocate_device_pixels env s).DEVICE_BALLS = none) ∧
    (released_objects ((allocate_device_pixels env s).trace.drop s.trace.length)).Nodup ∧
    ∀ o, o ∈ released_objects ((allocate_device_pixels env s).trace.drop s.trace.length) ↔
      ((o ≠ Obj.DEVICE_PIXELS ∧ o ≠ Obj.DEVICE_BALLS) ∨
       (o = Obj.DEVICE_PIXELS ∧ s.device_pixels_allocated = true) ∨
       (o = Obj.DEVICE_BALLS ∧ s.device_balls_allocated = true)) := by
  cases hf : s.opencl_framework_available
  · rw [allocate_device_pixels_off env s hf] at h
    simp at h
  · rw [allocate_device_pixels_on env s hf] at h ⊢
    split_ifs at h ⊢ with hok
    · exfalso
      simp only [List.append_assoc, List.drop_left, List.mem_append, List.mem_singleton] at h
      rcases h with h | h
      · have := pixels_release_release s _ h
        simp [Event.isRelease] at this
      · simp at h
    · rw [shutdown_eq { s with
        device_pixels_allocated := false
        DEVICE_PIXELS := none
        trace := s.trace ++ pixels_release s ++
          [Event.create Obj.DEVICE_PIXELS (pixels_size s.PIXBUF) false] } hf]
      cases hp : s.device_pixels_allocated <;> cases hb : s.device_balls_allocated <;>
        simp [shutdown_calls, pixels_release, released_objects, hp, hb] <;>
        (intro o; cases o <;> simp)

/-- What a failed creation in `allocate_device_balls` leaves. -/
theorem allocate_device_balls_failed_calls {F : Type} (env : Env F) (s : State F) (size : Nat)
    (h : Event.create Obj.DEVICE_BALLS size false ∈
      (allocate_device_balls env s).trace.drop s.trace.length) :
    (allocate_device_balls env s).DEVICE_BALLS = none ∧
    (s.device_pixels_allocated = true → (allocate_device_balls env s).DEVICE_PIXELS = none) ∧
    (released_objects ((allocate_device_balls env s).trace.drop s.trace.length)).Nodup ∧
    ∀ o, o ∈ released_objects ((allocate_device_balls env s).trace.drop s.trace.length) ↔
      ((o ≠ Obj.DEVICE_PIXELS ∧ o ≠ Obj.DEVICE_BALLS) ∨
       (o = Obj.DEVICE_PIXELS ∧ s.device_pixels_allocated = true) ∨
       (o = Obj.DEVICE_BALLS ∧ s.device_balls_allocated = true)) := by
  cases hf : s.opencl_framework_available
  · rw [allocate_device_balls_off env s hf] at h
    simp at h
  · rw [allocate_device_balls_on env s hf] at h ⊢
    split_ifs at h ⊢ with hok
    · exfalso
      simp only [List.append_assoc, List.drop_left, List.mem_append, List.mem_singleton] at h
      rcases h with h | h
      · have := balls_release_release s _ h
        simp [Event.isRelease] at this
      · simp at h
    · rw [shutdown_eq { s with
        device_balls_allocated := false
        DEVICE_BALLS := none
        trace := s.trace ++ balls_release s ++
          [Event.create Obj.DEVICE_BALLS (balls_size env s) false] } hf]
      cases hp : s.device_pixels_allocated <;> cases hb : s.device_balls_allocated <;>
        simp [shutdown_calls, balls_release, released_objects, hp, hb] <;>
        (intro o; cases o <;> simp)

/-- With the queue not valid a tick is not skipped: it issues the fade launch,
which the runtime refuses, and nothing behind it. -/
theorem tick_ops_down {F : Type} (env : Env F) (s : State F) (hq : s.QUEUE = false) :
    tick_ops env s = [Event.launch Obj.ALPHA_KERNEL (fade_count s.PIXBUF) false] := by
  obtain ⟨hops, -⟩ := tick_cases env s
  rw [if_pos (alpha_dead env s hq)] at hops
  exact hops


/-- With the fade kernel and the queue released a tick still binds the three
arguments and calls the fade launch; all four calls are refused and the tick
returns FALSE behind the launch. -/
theorem tick_released {F : Type} (env : Env F) (s : State F) (hq : s.QUEUE = false)
    (hk : s.ALPHA_KERNEL = false) :
    update_and_draw_balls env s =
      (false, s.emits
        [Event.setArg Obj.ALPHA_KERNEL 0 false, Event.setArg Obj.ALPHA_KERNEL 1 false,
         Event.setArg Obj.ALPHA_KERNEL 2 false,
         Event.launch Obj.ALPHA_KERNEL (fade_count s.PIXBUF) false]) := by
  simp [update_and_draw_balls, alpha, set_kernel_args, clSetKernelArg, clEnqueueNDRangeKernel,
    Env.outcome, State.valid, emit_eq_emits, fade_count, hq, hk]

/-- The events of the main loop leave a released fade kernel released. -/
theorem down_dispatch_kernel {F : Type} [OfScientific F] [Add F] [Sub F] (env : Env F)
    (r : State F × Bool) (ev : GtkEvent) (hd : Down r.1) :
    (gtk_dispatch env r ev).1.ALPHA_KERNEL = r.1.ALPHA_KERNEL := by
  obtain ⟨hq, hf, hp, hb⟩ := hd
  cases ev with
  | timeout =>
    obtain ⟨L, hL, -⟩ := tick_down env r.1 hq
    simp only [gtk_dispatch]
    split_ifs
    · rfl
    · rw [hL]; rfl
    · rfl
  | key_press_event event =>
    simp only [gtk_dispatch]
    split_ifs
    · rfl
    · rcases keyboard_input_frame r.1 event with ⟨p, hk⟩ | hk
      · rw [hk]
      · rw [hk]; rfl
  | configure_event width height =>
    simp only [gtk_dispatch]
    split_ifs
    · rfl
    · by_cases h : ∃ pb, r.1.PIXBUF = some pb ∧ pb.width = width ∧ pb.height = height
      · rw [resize_pixbuf_same env r.1 width height h]
      · rw [resize_pixbuf_other env r.1 width height h,
          allocate_device_pixels_off env
            { r.1 with PIXBUF := some (gdk_pixbuf_new env width height) } hf]
        obtain ⟨L, hL, -⟩ := tick_down env
          { r.1 with PIXBUF := some (gdk_pixbuf_new env width height) } hq
        rw [hL]; rfl
  | destroy =>
    simp only [gtk_dispatch]
    split_ifs
    · rfl
    · rfl

theorem down_run_kernel {F : Type} [OfScientific F] [Add F] [Sub F] (env : Env F)
    (evs : List GtkEvent) : ∀ (r : State F × Bool), Down r.1 →
    (evs.foldl (gtk_dispatch env) r).1.ALPHA_KERNEL = r.1.ALPHA_KERNEL := by
  induction evs with
  | nil => intro r _; rfl
  | cons ev evs ih =>
    intro r hd
    rw [List.foldl_cons, ih (gtk_dispatch env r ev) (down_dispatch env r ev hd).1]
    exact down_dispatch_kernel env r ev hd

theorem startup_rest_kernel {F : Type} (env : Env F) (s : State F) (hd : Down s) :
    (draw_image env (randomize_balls env (allocate_device_balls env s))).2.ALPHA_KERNEL =
      s.ALPHA_KERNEL := by
  rw [allocate_device_balls_off env s hd.2.1]
  obtain ⟨L1, h1, -⟩ := randomize_balls_down env s hd.1
  rw [h1]
  obtain ⟨L2, h2, -⟩ := draw_image_down env (s.emits L1) hd.1
  rw [h2]
  rfl


/-- With the framework available, `allocate_device_pixels` leaves the framework
flag cleared only behind a failed creation, and then PIXELS is not valid. -/
theorem allocate_device_pixels_cleared {F : Type} (env : Env F) (s : State F)
    (hf : s.opencl_framework_available = true)
    (h : (allocate_device_pixels env s).opencl_framework_available = false) :
    (allocate_device_pixels env s).DEVICE_PIXELS = none := by
  rw [allocate_device_pixels_on env s hf] at h ⊢
  split_ifs at h ⊢ with hok
  · simp [hf] at h
  · rw [shutdown_eq { s with
      device_pixels_allocated := false
      DEVICE_PIXELS := none
      trace := s.trace ++ pixels_release s ++
        [Event.create Obj.DEVICE_PIXELS (pixels_size s.PIXBUF) false] } hf]
    simp

/-- With the framework available, `allocate_device_balls` leaves the framework
flag cleared only behind a failed creation, and then BALLS is not valid. -/
theorem allocate_device_balls_cleared {F : Type} (env : Env F) (s : State F)
    (hf : s.opencl_framework_available = true)
    (h : (allocate_device_balls env s).opencl_framework_available = false) :
    (allocate_device_balls env s).DEVICE_BALLS = none := by
  rw [allocate_device_balls_on env s hf] at h ⊢
  split_ifs at h ⊢ with hok
  · simp [hf] at h
  · rw [shutdown_eq { s with
      device_balls_allocated := false
      DEVICE_BALLS := none
      trace := s.trace ++ balls_release s ++
        [Event.create Obj.DEVICE_BALLS (balls_size env s) false] } hf]
    simp

/-- C7 (amended): when the buffer creation of `allocate_device_pixels` or of
`allocate_device_balls` fails, the call leaves all three flags cleared and the
context, the three kernels and the queue released; the buffer whose creation
failed and every buffer that was flagged are no longer valid; the objects the
call releases are, each exactly once, the three kernels, the queue, the
context, and PIXELS and BALLS each when its flag was set.  Ticks are not
disabled by the program: nothing on the tick path tests
`opencl_framework_available`, so right after the failure, after the rest of
the startup (`allocate_device_balls`, `randomize_balls`, `draw_image`) and
after any sequence of timer ticks, key presses, resizes and window
destructions, a tick still binds the three arguments of the fade kernel and
launches it, on released handles.  The runtime refuses a call on a released
object (the contract written in `Env.outcome`), and only for this reason the
four calls fail: the tick stops behind the refused fade launch and returns
FALSE, which removes the timer, and no launch and no readback is accepted
behind the failure.  The flags stay cleared. -/
theorem allocation_failure_effect {F : Type} [OfScientific F] [Add F] [Sub F]
    (env : Env F) (s s' : State F) (size : Nat)
    (hfail :
      (s' = allocate_device_pixels env s ∧
        Event.create Obj.DEVICE_PIXELS size false ∈ s'.trace.drop s.trace.length) ∨
      (s' = allocate_device_balls env s ∧
        Event.create Obj.DEVICE_BALLS size false ∈ s'.trace.drop s.trace.length)) :
    (s'.opencl_framework_available = false ∧ s'.device_pixels_allocated = false ∧
      s'.device_balls_allocated = false) ∧
    (s'.CONTEXT = false ∧ s'.INIT_KERNEL = false ∧ s'.ALPHA_KERNEL = false ∧
      s'.BALLS_KERNEL = false ∧ s'.QUEUE = false) ∧
    ((s.device_pixels_allocated = true → s'.DEVICE_PIXELS = none) ∧
      (s.device_balls_allocated = true → s'.DEVICE_BALLS = none) ∧
      (s' = allocate_device_pixels env s → s'.DEVICE_PIXELS = none) ∧
      (s' = allocate_device_balls env s → s'.DEVICE_BALLS = none)) ∧
    ((released_objects (s'.trace.drop s.trace.length)).Nodup ∧
      ∀ o, o ∈ released_objects (s'.trace.drop s.trace.length) ↔
        ((o ≠ Obj.DEVICE_PIXELS ∧ o ≠ Obj.DEVICE_BALLS) ∨
         (o = Obj.DEVICE_PIXELS ∧ s.device_pixels_allocated = true) ∨
         (o = Obj.DEVICE_BALLS ∧ s.device_balls_allocated = true))) ∧
    ∀ t ∈ [s', (draw_image env (randomize_balls env (allocate_device_balls env s'))).2],
      ∀ (evs : List GtkEvent) (timer : Bool),
        ((evs.foldl (gtk_dispatch env) (t, timer)).1.opencl_framework_available = false ∧
          (evs.foldl (gtk_dispatch env) (t, timer)).1.device_pixels_allocated = false ∧
          (evs.foldl (gtk_dispatch env) (t, timer)).1.device_balls_allocated = false) ∧
        update_and_draw_balls env (evs.foldl (gtk_dispatch env) (t, timer)).1 =
          (false, (evs.foldl (gtk_dispatch env) (t, timer)).1.emits
            [Event.setArg Obj.ALPHA_KERNEL 0 false, Event.setArg Obj.ALPHA_KERNEL 1 false,
             Event.setArg Obj.ALPHA_KERNEL 2 false,
             Event.launch Obj.ALPHA_KERNEL
               (fade_count (evs.foldl (gtk_dispatch env) (t, timer)).1.PIXBUF) false]) ∧
        (∀ e ∈ (evs.foldl (gtk_dispatch env) (t, timer)).1.trace.drop s'.trace.length,
          e.isEnqueued = false) := by
  have hdown : Down s' ∧ s'.CONTEXT = false ∧ s'.INIT_KERNEL = false ∧
      s'.ALPHA_KERNEL = false ∧ s'.BALLS_KERNEL = false := by
    rcases hfail with ⟨rfl, h⟩ | ⟨rfl, h⟩
    · exact allocate_device_pixels_failed env s size h
    · exact allocate_device_balls_failed env s size h
  obtain ⟨hd, hc, hi, ha, hb⟩ := hdown
  obtain ⟨hd0, g0⟩ := startup_rest_down env s' hd
  have hbuf : (s.device_pixels_allocated = true → s'.DEVICE_PIXELS = none) ∧
      (s.device_balls_allocated = true → s'.DEVICE_BALLS = none) ∧
      (released_objects (s'.trace.drop s.trace.length)).Nodup ∧
      ∀ o, o ∈ released_objects (s'.trace.drop s.trace.length) ↔
        ((o ≠ Obj.DEVICE_PIXELS ∧ o ≠ Obj.DEVICE_BALLS) ∨
         (o = Obj.DEVICE_PIXELS ∧ s.device_pixels_allocated = true) ∨
         (o = Obj.DEVICE_BALLS ∧ s.device_balls_allocated = true)) := by
    rcases hfail with ⟨rfl, h⟩ | ⟨rfl, h⟩
    · obtain ⟨h1, h2, h3, h4⟩ := allocate_device_pixels_failed_calls env s size h
      exact ⟨fun _ => h1, h2, h3, h4⟩
    · obtain ⟨h1, h2, h3, h4⟩ := allocate_device_balls_failed_calls env s size h
      exact ⟨h2, fun _ => h1, h3, h4⟩
  have hon : s.opencl_framework_available = true := by
    cases hf : s.opencl_framework_available
    · exfalso
      rcases hfail with ⟨rfl, h⟩ | ⟨rfl, h⟩
      · rw [allocate_device_pixels_off env s hf] at h; simp at h
      · rw [allocate_device_balls_off env s hf] at h; simp at h
    · rfl
  have hown : (s' = allocate_device_pixels env s → s'.DEVICE_PIXELS = none) ∧
      (s' = allocate_device_balls env s → s'.DEVICE_BALLS = none) := by
    constructor
    · intro e
      rw [e] at hd ⊢
      exact allocate_device_pixels_cleared env s hon hd.2.1
    · intro e
      rw [e] at hd ⊢
      exact allocate_device_balls_cleared env s hon hd.2.1
  refine ⟨⟨hd.2.1, hd.2.2.1, hd.2.2.2⟩, ⟨hc, hi, ha, hb, hd.1⟩,
    ⟨hbuf.1, hbuf.2.1, hown.1, hown.2⟩, hbuf.2.2, ?_⟩
  intro t ht evs timer
  have htd : Down t ∧ t.ALPHA_KERNEL = false ∧
      Grows (fun e => e.isEnqueued = false) s'.trace t.trace := by
    simp only [List.mem_cons, List.mem_singleton, List.not_mem_nil, or_false] at ht
    rcases ht with rfl | rfl
    · exact ⟨hd, ha, grows_refl _ _⟩
    · exact ⟨hd0, (startup_rest_kernel env s' hd).trans ha, g0⟩
  obtain ⟨hd', g⟩ := down_run env evs (t, timer) htd.1
  have hk : (evs.foldl (gtk_dispatch env) (t, timer)).1.ALPHA_KERNEL = false :=
    (down_run_kernel env evs (t, timer) htd.1).trans htd.2.1
  exact ⟨⟨hd'.2.1, hd'.2.2.1, hd'.2.2.2⟩, tick_released env _ hd'.1 hk,
    grows_drop (grows_trans htd.2.2 g)⟩

/-- Witness of C7 (amended): the started program (18 calls made, a tick
succeeds) is resized while the creation of the new PIXELS fails.  The flags
are cleared and the queue released, and after one more timer tick and one more
resize a tick still issues the three bindings and the fade launch, all
refused. -/
theorem allocation_failure_effect_witness :
    after_setup.trace.length = 18 ∧
    (update_and_draw_balls env_resize_fails after_setup).1 = true ∧
    (allocate_device_pixels env_resize_fails after_setup).opencl_framework_available = false ∧
    (allocate_device_pixels env_resize_fails after_setup).QUEUE = false ∧
    update_and_draw_balls env_resize_fails
        ([GtkEvent.timeout, GtkEvent.configure_event 400 400].foldl
          (gtk_dispatch env_resize_fails)
          (allocate_device_pixels env_resize_fails after_setup, true)).1 =
      (false, ([GtkEvent.timeout, GtkEvent.configure_event 400 400].foldl
          (gtk_dispatch env_resize_fails)
          (allocate_device_pixels env_resize_fails after_setup, true)).1.emits
        [Event.setArg Obj.ALPHA_KERNEL 0 false, Event.setArg Obj.ALPHA_KERNEL 1 false,
         Event.setArg Obj.ALPHA_KERNEL 2 false,
         Event.launch Obj.ALPHA_KERNEL
           (fade_count ([GtkEvent.timeout, GtkEvent.configure_event 400 400].foldl
             (gtk_dispatch env_resize_fails)
             (allocate_device_pixels env_resize_fails after_setup, true)).1.PIXBUF) false]) :=
  have h := allocation_failure_effect env_resize_fails after_setup
    (allocate_device_pixels env_resize_fails after_setup) 1920000 (Or.inl ⟨rfl, by decide⟩)
  ⟨by decide, by rfl, h.1.1, h.2.1.2.2.2.2,
    (h.2.2.2.2 _ (List.mem_cons_self _ _)
      [GtkEvent.timeout, GtkEvent.configure_event 400 400] true).2.1⟩

/-- Counterexample to C7 as stated: start the program without arguments,
every call succeeding but the creation of PIXELS at the first resize, then let
the window be resized to 400 × 400, the timer fire and the window be resized
to 500 × 500.  Behind the failed creation and the releases, the tick of the
first resize, the timer tick and the tick of the second resize each bind the
arguments of the released fade kernel and launch it on the released queue:
ticks are not disabled, the launches are only refused by the runtime. -/
theorem ticks_not_disabled :
    (main env_resize_fails [['p']]
      [GtkEvent.configure_event 400 400, GtkEvent.timeout,
       GtkEvent.configure_event 500 500]).2.map
      (fun s => (s.opencl_framework_available, s.QUEUE, s.ALPHA_KERNEL, s.trace.drop 18)) =
    some (false, false, false,
      [Event.release Obj.DEVICE_PIXELS true,
       Event.create Obj.DEVICE_PIXELS 480000 false,
       Event.release Obj.BALLS_KERNEL true, Event.release Obj.ALPHA_KERNEL true,
       Event.release Obj.INIT_KERNEL true, Event.release Obj.QUEUE true,
       Event.release Obj.CONTEXT true, Event.release Obj.DEVICE_BALLS true,
       Event.setArg Obj.ALPHA_KERNEL 0 false, Event.setArg Obj.ALPHA_KERNEL 1 false,
       Event.setArg Obj.ALPHA_KERNEL 2 false, Event.launch Obj.ALPHA_KERNEL 480000 false,
       Event.setArg Obj.ALPHA_KERNEL 0 false, Event.setArg Obj.ALPHA_KERNEL 1 false,
       Event.setArg Obj.ALPHA_KERNEL 2 false, Event.launch Obj.ALPHA_KERNEL 480000 false,
       Event.setArg Obj.ALPHA_KERNEL 0 false, Event.setArg Obj.ALPHA_KERNEL 1 false,
       Event.setArg Obj.ALPHA_KERNEL 2 false, Event.launch Obj.ALPHA_KERNEL 750000 false]) := by
  rfl


/-! ## Quitting -/

@[simp] theorem clRelease_kept {F : Type} (s : State F) (o : Obj) :
    (clRelease s o).kept = s.kept := by
  cases o <;> rfl

@[simp] theorem clCreate_kept {F : Type} (env : Env F) (s : State F) (o : Obj) (n : Nat) :
    (clCreate env s o n).2.kept = s.kept := by
  cases o <;> rfl

@[simp] theorem util_choose_device_kept {F : Type} (env : Env F) (s : State F) :
    (util_choose_device env s).2.kept = s.kept := rfl

@[simp] theorem device_unavailable_kept {F : Type} (s : State F) :
    (device_unavailable s).kept = s.kept := rfl

@[simp] theorem cleanup_init_kernel_kept {F : Type} (s : State F) :
    (cleanup_init_kernel s).kept = s.kept := by
  simp [cleanup_init_kernel]

@[simp] theorem cleanup_alpha_kernel_kept {F : Type} (s : State F) :
    (cleanup_alpha_kernel s).kept = s.kept := by
  simp [cleanup_alpha_kernel]

@[simp] theorem cleanup_balls_kernel_kept {F : Type} (s : State F) :
    (cleanup_balls_kernel s).kept = s.kept := by
  simp [cleanup_balls_kernel]

@[simp] theorem cleanup_queue_kept {F : Type} (s : State F) :
    (cleanup_queue s).kept = s.kept := by
  simp [cleanup_queue]

theorem framework_flag_kept {F : Type} (s : State F) (b : Bool) :
    ({ s with opencl_framework_available := b } : State F).kept = s.kept := rfl

theorem initialize_kept {F : Type} (env : Env F) (s : State F) :
    (initialize_opencl_framework env s).kept = s.kept := by
  unfold initialize_opencl_framework
  simp only [apply_ite State.kept, cleanup_queue_kept, cleanup_balls_kernel_kept,
    cleanup_alpha_kernel_kept, cleanup_init_kernel_kept, device_unavailable_kept,
    clCreate_kept, util_choose_device_kept, framework_flag_kept, ite_self]

theorem allocate_device_pixels_fit {F : Type} (env : Env F) (s : State F)
    (h : s.device_pixels_allocated = true → s.opencl_framework_available = true) :
    PixelsFit (allocate_device_pixels env s) := by
  cases hf : s.opencl_framework_available
  · rw [allocate_device_pixels_off env s hf]
    intro hp
    rw [h hp] at hf
    exact absurd hf (by simp)
  · rw [allocate_device_pixels_on env s hf]
    split_ifs
    · intro _
      exact ⟨hf, rfl⟩
    · rw [shutdown_eq { s with
        device_pixels_allocated := false
        DEVICE_PIXELS := none
        trace := s.trace ++ pixels_release s ++
          [Event.create Obj.DEVICE_PIXELS (pixels_size s.PIXBUF) false] } hf]
      intro hp
      exact absurd hp (by simp)

theorem allocate_device_balls_fit {F : Type} (env : Env F) (s : State F)
    (h : PixelsFit s) : PixelsFit (allocate_device_balls env s) := by
  cases hf : s.opencl_framework_available
  · rw [allocate_device_balls_off env s hf]
    exact h
  · rw [allocate_device_balls_on env s hf]
    split_ifs
    · exact h
    · rw [shutdown_eq { s with
        device_balls_allocated := false
        DEVICE_BALLS := none
        trace := s.trace ++ balls_release s ++
          [Event.create Obj.DEVICE_BALLS (balls_size env s) false] } hf]
      intro hp
      exact absurd hp (by simp)

theorem randomize_balls_emits {F : Type} (env : Env F) (s : State F) :
    ∃ L, randomize_balls env s = s.emits L := by
  obtain ⟨L, hL, -⟩ := set_kernel_args_spec env Obj.INIT_KERNEL 6 0 false s
  unfold randomize_balls
  simp only [hL]
  split_ifs
  · exact ⟨L, rfl⟩
  · exact ⟨_, by simp [clFinish, clEnqueueNDRangeKernel, emit_eq_emits]; rfl⟩

theorem draw_image_emits {F : Type} (env : Env F) (s : State F) :
    ∃ L, (draw_image env s).2 = s.emits L := by
  obtain ⟨ok, h⟩ := draw_image_spec env s
  cases ok
  · exact ⟨_, by rw [h]; rfl⟩
  · exact ⟨_, by rw [h]; rfl⟩

theorem main_setup_fit {F : Type} [OfScientific F] (env : Env F) (argv : List (List Char))
    (s : State F) (h : main_setup env argv = some s) : PixelsFit s := by
  unfold main_setup at h
  simp only at h
  split_ifs at h
  simp only [Option.some.injEq] at h
  have hp : (initialize_opencl_framework env (init_state : State F)).device_pixels_allocated
      = false := congrArg Prod.fst (initialize_kept env (init_state : State F))
  have h1 := allocate_device_pixels_fit env
    { initialize_opencl_framework env (init_state : State F) with
      params := (read_args env.strtod
        (initialize_opencl_framework env (init_state : State F)).params argv).2
      PIXBUF := some (gdk_pixbuf_new env DEFAULT_WIDTH DEFAULT_HEIGHT) }
    (by intro h0; rw [show ({ initialize_opencl_framework env (init_state : State F) with
      params := (read_args env.strtod
        (initialize_opencl_framework env (init_state : State F)).params argv).2
      PIXBUF := some (gdk_pixbuf_new env DEFAULT_WIDTH DEFAULT_HEIGHT) } :
        State F).device_pixels_allocated = false from hp] at h0; exact absurd h0 (by simp))
  have h2 := allocate_device_balls_fit env _ h1
  obtain ⟨L1, e1⟩ := randomize_balls_emits env (allocate_device_balls env
    (allocate_device_pixels env
    { initialize_opencl_framework env (init_state : State F) with
      params := (read_args env.strtod
        (initialize_opencl_framework env (init_state : State F)).params argv).2
      PIXBUF := some (gdk_pixbuf_new env DEFAULT_WIDTH DEFAULT_HEIGHT) }))
  rw [e1] at h
  obtain ⟨L2, e2⟩ := draw_image_emits env ((allocate_device_balls env
    (allocate_device_pixels env
    { initialize_opencl_framework env (init_state : State F) with
      params := (read_args env.strtod
        (initialize_opencl_framework env (init_state : State F)).params argv).2
      PIXBUF := some (gdk_pixbuf_new env DEFAULT_WIDTH DEFAULT_HEIGHT) })).emits L1)
  rw [e2] at h
  rw [← h]
  exact h2


theorem gtk_dispatch_fit {F : Type} [OfScientific F] [Add F] [Sub F] (env : Env F)
    (r : State F × Bool) (ev : GtkEvent) (h : PixelsFit r.1) :
    PixelsFit (gtk_dispatch env r ev).1 := by
  cases ev with
  | timeout =>
    obtain ⟨L, hL, -⟩ := tick_calls env r.1
    simp only [gtk_dispatch]
    split_ifs
    · exact h
    · rw [hL]; exact h
    · exact h
  | key_press_event event =>
    simp only [gtk_dispatch]
    split_ifs
    · exact h
    · rcases keyboard_input_frame r.1 event with ⟨p, hk⟩ | hk
      · rw [hk]; exact h
      · rw [hk]; exact h
  | configure_event width height =>
    simp only [gtk_dispatch]
    split_ifs
    · exact h
    · by_cases hs : ∃ pb, r.1.PIXBUF = some pb ∧ pb.width = width ∧ pb.height = height
      · rw [resize_pixbuf_same env r.1 width height hs]
        exact h
      · rw [resize_pixbuf_other env r.1 width height hs]
        have h1 := allocate_device_pixels_fit env
          { r.1 with PIXBUF := some (gdk_pixbuf_new env width height) }
          (fun hp => (h hp).1)
        obtain ⟨L, hL, -⟩ := tick_calls env (allocate_device_pixels env
          { r.1 with PIXBUF := some (gdk_pixbuf_new env width height) })
        rw [hL]
        exact h1
  | destroy =>
    simp only [gtk_dispatch]
    split_ifs
    · exact h
    · exact h

theorem gtk_run_fit {F : Type} [OfScientific F] [Add F] [Sub F] (env : Env F)
    (evs : List GtkEvent) : ∀ r : State F × Bool, PixelsFit r.1 →
    PixelsFit (evs.foldl (gtk_dispatch env) r).1 := by
  induction evs with
  | nil => intro r h; exact h
  | cons ev evs ih => intro r h; exact ih _ (gtk_dispatch_fit env r ev h)

/-- In every state the program reaches from its start through timer ticks,
key presses, resizes and window destructions, a set PIXELS flag means that the
framework is available and that the PIXELS buffer is valid and has the byte
size `pixels_size` of the current host image. -/
theorem pixels_fit_reachable {F : Type} [OfScientific F] [Add F] [Sub F] (env : Env F)
    (argv : List (List Char)) (evs : List GtkEvent) (s : State F)
    (h : (main env argv evs).2 = some s) : PixelsFit s := by
  unfold main at h
  cases hm : main_setup env argv with
  | none => rw [hm] at h; simp at h
  | some s0 =>
    rw [hm] at h
    simp only [Option.some.injEq] at h
    rw [← h]
    exact gtk_run_fit env evs (s0, true) (main_setup_fit env argv s0 hm)

/-- For a host image whose dimensions are C `int` values and whose
`height * rowstride` fits a C `int`, the byte size of PIXELS, the readback
byte count and the fade work-item count all equal `height * rowstride`. -/
theorem counts_agree_of_small (pb : Pixbuf)
    (hh : 0 ≤ pb.height) (hH : pb.height < 2 ^ 31)
    (hs : 0 ≤ pb.rowstride) (hS : pb.rowstride < 2 ^ 31)
    (hsmall : pb.height * pb.rowstride < 2 ^ 31) :
    (pixels_size (some pb) : Int) = pb.height * pb.rowstride ∧
    (read_count (some pb) : Int) = pb.height * pb.rowstride ∧
    (fade_count (some pb) : Int) = pb.height * pb.rowstride := by
  have hprod : 0 ≤ pb.height * pb.rowstride := Int.mul_nonneg hh hs
  have hfade : (fade_count (some pb) : Int) = pb.height * pb.rowstride := by
    simp only [fade_count, gdk_pixbuf_get_height, gdk_pixbuf_get_rowstride, int_mul, to_size_t]
    generalize pb.height * pb.rowstride = p at hprod hsmall
    omega
  have h1 : to_size_t pb.height = pb.height.toNat := by
    unfold to_size_t; congr 1; omega
  have h2 : to_size_t pb.rowstride = pb.rowstride.toNat := by
    unfold to_size_t; congr 1; omega
  have hread : (read_count (some pb) : Int) = pb.height * pb.rowstride := by
    simp only [read_count, gdk_pixbuf_get_height, gdk_pixbuf_get_rowstride, size_t_mul, h1, h2,
      one_mul]
    have e1 : ((pb.height.toNat : Nat) : Int) = pb.height := Int.toNat_of_nonneg hh
    have e2 : ((pb.rowstride.toNat : Nat) : Int) = pb.rowstride := Int.toNat_of_nonneg hs
    have hlt : pb.height.toNat < 2 ^ 64 := by omega
    have hp : pb.height.toNat * pb.rowstride.toNat < 2 ^ 64 := by
      have : ((pb.height.toNat * pb.rowstride.toNat : Nat) : Int) < 2 ^ 31 := by
        push_cast; rw [e1, e2]; exact hsmall
      omega
    rw [Nat.mod_eq_of_lt hlt, Nat.mod_eq_of_lt hp]
    push_cast
    rw [e1, e2]
  refine ⟨?_, hread, hfade⟩
  rw [← read_count_eq_pixels_size]
  exact hread

/-- Witness of `counts_agree_of_small`: the default 800 × 800 image. -/
theorem counts_agree_of_small_witness :
    (pixels_size (some (gdk_pixbuf_new env_ok 800 800)) : Int) = 800 * 2400 ∧
    (read_count (some (gdk_pixbuf_new env_ok 800 800)) : Int) = 800 * 2400 ∧
    (fade_count (some (gdk_pixbuf_new env_ok 800 800)) : Int) = 800 * 2400 :=
  counts_agree_of_small (gdk_pixbuf_new env_ok 800 800) (by decide) (by decide) (by decide)
    (by decide) (by decide)

/-- C9 (the code at the failing input): start the program without arguments
and resize the window to 30000 × 30000 (row stride 90000, so H·S is
2700000000).  PIXELS is allocated with 2700000000 bytes and the readback
copies 2700000000 bytes, but the fade launch is made over
18446744072114584320 work-items: `alpha` multiplies in `int`, which wraps,
where `draw_image` and `allocate_device_pixels` multiply in `size_t`. -/
theorem fade_count_wraps :
    (main env_ok [['p']] [GtkEvent.configure_event 30000 30000]).2.map (fun s =>
      (s.device_pixels_allocated, s.DEVICE_PIXELS,
       gdk_pixbuf_get_height s.PIXBUF * gdk_pixbuf_get_rowstride s.PIXBUF,
       ops (s.trace.drop 18))) =
    some (true, some 2700000000, 2700000000,
      [Event.release Obj.DEVICE_PIXELS true,
       Event.create Obj.DEVICE_PIXELS 2700000000 true,
       Event.launch Obj.ALPHA_KERNEL 18446744072114584320 true, Event.finish,
       Event.launch Obj.BALLS_KERNEL 100 true, Event.finish,
       Event.read 2700000000 true, Event.draw]) := by
  rfl


/-! ## Position containment -/

theorem reflect_contained (R dim c v : ℚ) (h : 2 * R ≤ dim) :
    R ≤ (reflect R dim c v).1 ∧ (reflect R dim c v).1 ≤ dim - R := by
  unfold reflect
  split_ifs with h1 h2
  · exact ⟨le_refl _, by show R ≤ dim - R; linarith⟩
  · exact ⟨by show R ≤ dim - R; linarith, le_refl _⟩
  · exact ⟨by show R ≤ c; linarith, by show c ≤ dim - R; linarith⟩

/-- C10 (amended): position containment in a viewport that has room for the
disk.  For every radius R and every current viewport size W, H with 2R ≤ W and
2R ≤ H (also one just changed by a resize: the balls before the tick are
arbitrary), after a `step_and_splat` tick every ball satisfies R ≤ x ≤ W − R
and R ≤ y ≤ H − R; the wall reflection being, per axis: a coordinate < R is set
to R, a coordinate > dim − R is set to dim − R, the matching velocity negated,
and a coordinate in between is left alone with its velocity. -/
theorem step_and_splat_contained (W H R FX FY dt D : ℚ) (balls : List Ball)
    (hW : 2 * R ≤ W) (hH : 2 * R ≤ H) :
    (∀ b ∈ step_and_splat W H R FX FY dt D balls,
      R ≤ b.x ∧ b.x ≤ W - R ∧ R ≤ b.y ∧ b.y ≤ H - R) ∧
    (∀ dim c v : ℚ, 2 * R ≤ dim →
      (c < R → reflect R dim c v = (R, -v)) ∧
      (dim - R < c → reflect R dim c v = (dim - R, -v)) ∧
      (R ≤ c → c ≤ dim - R → reflect R dim c v = (c, v))) := by
  constructor
  · intro b hb
    simp only [step_and_splat, List.mem_map] at hb
    obtain ⟨b0, -, rfl⟩ := hb
    simp only [step_ball]
    exact ⟨(reflect_contained R W _ _ hW).1, (reflect_contained R W _ _ hW).2,
      (reflect_contained R H _ _ hH).1, (reflect_contained R H _ _ hH).2⟩
  · intro dim c v hdim
    refine ⟨?_, ?_, ?_⟩
    · intro h; simp [reflect, h]
    · intro h
      have h1 : ¬ c < R := by linarith
      simp [reflect, h1, h]
    · intro h1 h2
      have h3 : ¬ c < R := by linarith
      have h4 : ¬ c > dim - R := by linarith
      simp [reflect, h3, h4]

/-- Witness of C10 (amended): one ball about to cross the lower wall of a
100 × 100 viewport, radius 10. -/
theorem step_and_splat_contained_witness :
    (10 : ℚ) ≤ (step_ball 100 100 10 0 100 (1 / 10) 0 ⟨50, 85, 0, 40⟩).x ∧
    (step_ball 100 100 10 0 100 (1 / 10) 0 ⟨50, 85, 0, 40⟩).x ≤ 100 - 10 ∧
    10 ≤ (step_ball 100 100 10 0 100 (1 / 10) 0 ⟨50, 85, 0, 40⟩).y ∧
    (step_ball 100 100 10 0 100 (1 / 10) 0 ⟨50, 85, 0, 40⟩).y ≤ 100 - 10 :=
  (step_and_splat_contained 100 100 10 0 100 (1 / 10) 0 [⟨50, 85, 0, 40⟩]
    (by norm_num) (by norm_num)).1 _ (by simp [step_and_splat])

/-- Counterexample to C10 as stated: radius 10 in a 15 × 15 viewport.  A ball
resting at (7, 7) is moved to x = 10 by the reflection, which is not ≤ W − R
= 5: no position satisfies R ≤ x ≤ W − R when W < 2R. -/
theorem step_not_contained_small_viewport :
    (0 : ℚ) < 10 ∧
    (step_ball 15 15 10 0 0 (1 / 25) 0 ⟨7, 7, 0, 0⟩).x = 10 ∧
    ¬ ((step_ball 15 15 10 0 0 (1 / 25) 0 ⟨7, 7, 0, 0⟩).x ≤ 15 - 10) := by
  have hx : (step_ball 15 15 10 0 0 (1 / 25) 0 ⟨7, 7, 0, 0⟩).x = 10 := by
    norm_num [step_ball, reflect]
  refine ⟨by norm_num, hx, ?_⟩
  rw [hx]; norm_num


/-! ## The result of `alpha` -/

/-- C11 (the code at the failing input): start the program without
arguments, let one tick succeed, and let the binding of argument 0 (PIXELS) of
the fade kernel fail in the second tick, every other call succeeding.  `alpha`
returns 0, not -1: the error of the three bindings is overwritten by the
result of the launch, the launch is made although a binding failed, and the
tick runs to its end and returns TRUE.  With a failed binding `move_balls`,
which tests the error of its bindings, returns -1 without launching. -/
theorem alpha_ignores_binding_failure :
    (main_setup env_rebind_fails [['p']]).map (fun s =>
      ((update_and_draw_balls env_rebind_fails s).2.trace.length,
       (alpha env_rebind_fails (update_and_draw_balls env_rebind_fails s).2).1,
       (alpha env_rebind_fails
         (update_and_draw_balls env_rebind_fails s).2).2.trace.drop 40,
       (update_and_draw_balls env_rebind_fails
         (update_and_draw_balls env_rebind_fails s).2).1,
       tick_ops env_rebind_fails (update_and_draw_balls env_rebind_fails s).2)) =
    some (40, 0,
      [Event.setArg Obj.ALPHA_KERNEL 0 false, Event.setArg Obj.ALPHA_KERNEL 1 true,
       Event.setArg Obj.ALPHA_KERNEL 2 true, Event.launch Obj.ALPHA_KERNEL 1920000 true],
      true,
      [Event.launch Obj.ALPHA_KERNEL 1920000 true, Event.finish,
       Event.launch Obj.BALLS_KERNEL 100 true, Event.finish,
       Event.read 1920000 true, Event.draw]) ∧
    (move_balls env_first_fails started).1 = -1 ∧
    ops (move_balls env_first_fails started).2.trace = [] := by
  refine ⟨by rfl, by rfl, by rfl⟩

/-- Whatever the bindings report, `alpha` returns -1 exactly when the fade
launch fails. -/
theorem alpha_returns_launch_result {F : Type} (env : Env F) (s : State F) :
    (alpha env s).1 = -1 ↔
      (clEnqueueNDRangeKernel env (set_kernel_args env Obj.ALPHA_KERNEL 3 0 (false, s)).2
        Obj.ALPHA_KERNEL (fade_count s.PIXBUF)).1 = true := by
  unfold alpha fade_count
  simp only
  split_ifs with h <;> simp [h]


/-! ## No double release -/

/-- A creation either succeeds, leaving a valid object, or fails, leaving a
handle that is not valid. -/
theorem clCreate_cases {F : Type} (env : Env F) (s : State F) (o : Obj) (size : Nat) :
    clCreate env s o size =
        (false, (s.assign o (some size)).emit (Event.create o size true)) ∨
    clCreate env s o size =
        (true, (s.assign o none).emit (Event.create o size false)) := by
  unfold clCreate
  cases env.outcome s (decide (o = Obj.CONTEXT) || s.CONTEXT)
  · right; rfl
  · left; rfl

theorem util_choose_device_cases {F : Type} (env : Env F) (s : State F) :
    util_choose_device env s = (false, s.emit (Event.choose_device true)) ∨
    util_choose_device env s = (true, s.emit (Event.choose_device false)) := by
  unfold util_choose_device
  cases env.outcome s true
  · right; rfl
  · left; rfl

/-- `initialize_opencl_framework` from a state in which nothing was created:
every release is made on a valid object, the flags tell the truth afterwards,
a failure releases exactly the objects created so far, last created first, and
leaves the framework flag cleared with no object valid, and a success creates
context, init kernel, fade kernel, step kernel and queue and releases
nothing. -/
theorem initialize_safe {F : Type} (env : Env F) (s : State F) (h : Unborn s) :
    ∃ L, (initialize_opencl_framework env s).trace = s.trace ++ L ∧
      (∀ e ∈ L, e.isBadRelease = false) ∧
      Coherent (initialize_opencl_framework env s) ∧
      ((initialize_opencl_framework env s).opencl_framework_available = false →
        released_objects L = (created_objects L).reverse ∧
        (∀ o, (initialize_opencl_framework env s).valid o = false)) ∧
      ((initialize_opencl_framework env s).opencl_framework_available = true →
        released_objects L = [] ∧
        created_objects L = [Obj.CONTEXT, Obj.INIT_KERNEL, Obj.ALPHA_KERNEL,
          Obj.BALLS_KERNEL, Obj.QUEUE]) := by
  obtain ⟨hf, hp, hb, h1, h2, h3, h4, h5, h6, h7⟩ := h
  unfold initialize_opencl_framework
  simp only
  rcases util_choose_device_cases env s with e0 | e0 <;> rw [e0] <;> simp only
  · rcases clCreate_cases env _ Obj.CONTEXT 0 with e1 | e1 <;> rw [e1] <;> simp only
    · rcases clCreate_cases env _ Obj.INIT_KERNEL 0 with e2 | e2 <;> rw [e2] <;> simp only
      · rcases clCreate_cases env _ Obj.ALPHA_KERNEL 0 with e3 | e3 <;> rw [e3] <;> simp only
        · rcases clCreate_cases env _ Obj.BALLS_KERNEL 0 with e4 | e4 <;> rw [e4] <;> simp only
          · rcases clCreate_cases env _ Obj.QUEUE 0 with e5 | e5 <;> rw [e5] <;> simp only
            · refine ⟨[Event.choose_device true, Event.create Obj.CONTEXT 0 true,
                  Event.create Obj.INIT_KERNEL 0 true, Event.create Obj.ALPHA_KERNEL 0 true,
                  Event.create Obj.BALLS_KERNEL 0 true, Event.create Obj.QUEUE 0 true], ?_,
                  by decide, ?_, ?_, ?_⟩
              · simp [device_unavailable, cleanup_init_kernel, cleanup_alpha_kernel,
                    cleanup_balls_kernel, cleanup_queue, clRelease, State.emit, State.assign,
                    State.valid]
              · simp [Coherent, device_unavailable, cleanup_init_kernel, cleanup_alpha_kernel,
                    cleanup_balls_kernel, cleanup_queue, clRelease, State.emit, State.assign,
                    State.valid, hf, hp, hb, h1, h2, h3, h4, h5, h6, h7]
              · intro hc; simp [device_unavailable, cleanup_init_kernel, cleanup_alpha_kernel,
                    cleanup_balls_kernel, cleanup_queue, clRelease, State.emit, State.assign,
                    State.valid] at hc
              · intro _; exact ⟨by rfl, by rfl⟩
            · refine ⟨[Event.choose_device true, Event.create Obj.CONTEXT 0 true,
                  Event.create Obj.INIT_KERNEL 0 true, Event.create Obj.ALPHA_KERNEL 0 true,
                  Event.create Obj.BALLS_KERNEL 0 true, Event.create Obj.QUEUE 0 false,
                  Event.release Obj.BALLS_KERNEL true, Event.release Obj.ALPHA_KERNEL true,
                  Event.release Obj.INIT_KERNEL true, Event.release Obj.CONTEXT true], ?_,
                  by decide, ?_, ?_, ?_⟩
              · simp [device_unavailable, cleanup_init_kernel, cleanup_alpha_kernel,
                    cleanup_balls_kernel, cleanup_queue, clRelease, State.emit, State.assign,
                    State.valid]
              · simp [Coherent, device_unavailable, cleanup_init_kernel, cleanup_alpha_kernel,
                    cleanup_balls_kernel, cleanup_queue, clRelease, State.emit, State.assign,
                    State.valid, hf, hp, hb, h1, h2, h3, h4, h5, h6, h7]
              · intro _
                refine ⟨by rfl, fun o => ?_⟩
                cases o <;> simp [device_unavailable, cleanup_init_kernel, cleanup_alpha_kernel,
                    cleanup_balls_kernel, cleanup_queue, clRelease, State.emit, State.assign,
                    State.valid, hf, hp, hb, h1, h2, h3, h4, h5, h6, h7]
              · intro hc; simp [device_unavailable, cleanup_init_kernel, cleanup_alpha_kernel,
                    cleanup_balls_kernel, cleanup_queue, clRelease, State.emit, State.assign,
                    State.valid] at hc
          · refine ⟨[Event.choose_device true, Event.create Obj.CONTEXT 0 true,
                Event.create Obj.INIT_KERNEL 0 true, Event.create Obj.ALPHA_KERNEL 0 true,
                Event.create Obj.BALLS_KERNEL 0 false, Event.release Obj.ALPHA_KERNEL true,
                Event.release Obj.INIT_KERNEL true, Event.release Obj.CONTEXT true], ?_,
                by decide, ?_, ?_, ?_⟩
            · simp [device_unavailable, cleanup_init_kernel, cleanup_alpha_kernel,
                  cleanup_balls_kernel, cleanup_queue, clRelease, State.emit, State.assign,
                  State.valid]
            · simp [Coherent, device_unavailable, cleanup_init_kernel, cleanup_alpha_kernel,
                  cleanup_balls_kernel, cleanup_queue, clRelease, State.emit, State.assign,
                  State.valid, hf, hp, hb, h1, h2, h3, h4, h5, h6, h7]
            · intro _
              refine ⟨by rfl, fun o => ?_⟩
              cases o <;> simp [device_unavailable, cleanup_init_kernel, cleanup_alpha_kernel,
                  cleanup_balls_kernel, cleanup_queue, clRelease, State.emit, State.assign,
                  State.valid, hf, hp, hb, h1, h2, h3, h4, h5, h6, h7]
            · intro hc; simp [device_unavailable, cleanup_init_kernel, cleanup_alpha_kernel,
                  cleanup_balls_kernel, cleanup_queue, clRelease, State.emit, State.assign,
                  State.valid] at hc
        · refine ⟨[Event.choose_device true, Event.create Obj.CONTEXT 0 true,
              Event.create Obj.INIT_KERNEL 0 true, Event.create Obj.ALPHA_KERNEL 0 false,
              Event.release Obj.INIT_KERNEL true, Event.release Obj.CONTEXT true], ?_, by decide,
              ?_, ?_, ?_⟩
          · simp [device_unavailable, cleanup_init_kernel, cleanup_alpha_kernel,
                cleanup_balls_kernel, cleanup_queue, clRelease, State.emit, State.assign,
                State.valid]
          · simp [Coherent, device_unavailable, cleanup_init_kernel, cleanup_alpha_kernel,
                cleanup_balls_kernel, cleanup_queue, clRelease, State.emit, State.assign,
                State.valid, hf, hp, hb, h1, h2, h3, h4, h5, h6, h7]
          · intro _
            refine ⟨by rfl, fun o => ?_⟩
            cases o <;> simp [device_unavailable, cleanup_init_kernel, cleanup_alpha_kernel,
                cleanup_balls_kernel, cleanup_queue, clRelease, State.emit, State.assign,
                State.valid, hf, hp, hb, h1, h2, h3, h4, h5, h6, h7]
          · intro hc; simp [device_unavailable, cleanup_init_kernel, cleanup_alpha_kernel,
                cleanup_balls_kernel, cleanup_queue, clRelease, State.emit, State.assign,
                State.valid] at hc
      · refine ⟨[Event.choose_device true, Event.create Obj.CONTEXT 0 true,
            Event.create Obj.INIT_KERNEL 0 false, Event.release Obj.CONTEXT true], ?_, by decide,
            ?_, ?_, ?_⟩
        · simp [device_unavailable, cleanup_init_kernel, cleanup_alpha_kernel,
              cleanup_balls_kernel, cleanup_queue, clRelease, State.emit, State.assign,
              State.valid]
        · simp [Coherent, device_unavailable, cleanup_init_kernel, cleanup_alpha_kernel,
              cleanup_balls_kernel, cleanup_queue, clRelease, State.emit, State.assign,
              State.valid, hf, hp, hb, h1, h2, h3, h4, h5, h6, h7]
        · intro _
          refine ⟨by rfl, fun o => ?_⟩
          cases o <;> simp [device_unavailable, cleanup_init_kernel, cleanup_alpha_kernel,
              cleanup_balls_kernel, cleanup_queue, clRelease, State.emit, State.assign,
              State.valid, hf, hp, hb, h1, h2, h3, h4, h5, h6, h7]
        · intro hc; simp [device_unavailable, cleanup_init_kernel, cleanup_alpha_kernel,
              cleanup_balls_kernel, cleanup_queue, clRelease, State.emit, State.assign,
              State.valid] at hc
    · refine ⟨[Event.choose_device true, Event.create Obj.CONTEXT 0 false], ?_, by decide, ?_, ?_,
          ?_⟩
      · simp [device_unavailable, cleanup_init_kernel, cleanup_alpha_kernel, cleanup_balls_kernel,
            cleanup_queue, clRelease, State.emit, State.assign, State.valid]
      · simp [Coherent, device_unavailable, cleanup_init_kernel, cleanup_alpha_kernel,
            cleanup_balls_kernel, cleanup_queue, clRelease, State.emit, State.assign, State.valid,
            hf, hp, hb, h1, h2, h3, h4, h5, h6, h7]
      · intro _
        refine ⟨by rfl, fun o => ?_⟩
        cases o <;> simp [device_unavailable, cleanup_init_kernel, cleanup_alpha_kernel,
            cleanup_balls_kernel, cleanup_queue, clRelease, State.emit, State.assign, State.valid,
            hf, hp, hb, h1, h2, h3, h4, h5, h6, h7]
      · intro hc; simp [device_unavailable, cleanup_init_kernel, cleanup_alpha_kernel,
            cleanup_balls_kernel, cleanup_queue, clRelease, State.emit, State.assign,
            State.valid] at hc
  · refine ⟨[Event.choose_device false], ?_, by decide, ?_, ?_, ?_⟩
    · simp [device_unavailable, cleanup_init_kernel, cleanup_alpha_kernel, cleanup_balls_kernel,
          cleanup_queue, clRelease, State.emit, State.assign, State.valid]
    · simp [Coherent, device_unavailable, cleanup_init_kernel, cleanup_alpha_kernel,
          cleanup_balls_kernel, cleanup_queue, clRelease, State.emit, State.assign, State.valid,
          hf, hp, hb, h1, h2, h3, h4, h5, h6, h7]
    · intro _
      refine ⟨by rfl, fun o => ?_⟩
      cases o <;> simp [device_unavailable, cleanup_init_kernel, cleanup_alpha_kernel,
          cleanup_balls_kernel, cleanup_queue, clRelease, State.emit, State.assign, State.valid,
          hf, hp, hb, h1, h2, h3, h4, h5, h6, h7]
    · intro hc; simp [device_unavailable, cleanup_init_kernel, cleanup_alpha_kernel,
          cleanup_balls_kernel, cleanup_queue, clRelease, State.emit, State.assign,
          State.valid] at hc

theorem shutdown_calls_good {F : Type} (s : State F) (h : Coherent s)
    (hf : s.opencl_framework_available = true) :
    ∀ e ∈ shutdown_calls s, e.isBadRelease = false := by
  obtain ⟨hk, hp, hb⟩ := h
  obtain ⟨k1, k2, k3, k4, k5⟩ := hk hf
  have hall : (shutdown_calls s).all (fun e => !e.isBadRelease) = true := by
    unfold shutdown_calls
    rw [k1, k2, k3, k4, k5]
    have hp' : s.device_pixels_allocated = true → s.DEVICE_PIXELS.isSome = true :=
      fun x => (hp x).2
    have hb' : s.device_balls_allocated = true → s.DEVICE_BALLS.isSome = true :=
      fun x => (hb x).2
    cases hpf : s.device_pixels_allocated <;> cases hbf : s.device_balls_allocated <;>
      simp [Event.isBadRelease, hp', hb', hpf, hbf]
  intro e he
  simpa using List.all_eq_true.mp hall e he

/-- From a state whose flags tell the truth `shutdown_opencl_framework`
releases valid objects only and leaves such a state. -/
theorem shutdown_safe {F : Type} (s : State F) (h : Coherent s) :
    Grows (fun e => e.isBadRelease = false) s.trace (shutdown_opencl_framework s).trace ∧
    Coherent (shutdown_opencl_framework s) := by
  cases hf : s.opencl_framework_available
  · rw [shutdown_off s hf]
    exact ⟨grows_refl _ _, h⟩
  · rw [shutdown_eq s hf]
    refine ⟨⟨_, rfl, shutdown_calls_good s h hf⟩, ?_⟩
    simp [Coherent]

theorem allocate_device_pixels_safe {F : Type} (env : Env F) (s : State F) (h : Coherent s) :
    Grows (fun e => e.isBadRelease = false) s.trace (allocate_device_pixels env s).trace ∧
    Coherent (allocate_device_pixels env s) := by
  cases hf : s.opencl_framework_available
  · rw [allocate_device_pixels_off env s hf]
    exact ⟨grows_refl _ _, h⟩
  · rw [allocate_device_pixels_on env s hf]
    have hrel : ∀ e ∈ pixels_release s, e.isBadRelease = false := by
      intro e he
      unfold pixels_release at he
      split_ifs at he with hp
      · rw [List.mem_singleton.mp he]
        simp [Event.isBadRelease, (h.2.1 hp).2]
      · simp at he
    have hstep : ∀ ok, Grows (fun e => e.isBadRelease = false) s.trace
        (s.trace ++ pixels_release s ++
          [Event.create Obj.DEVICE_PIXELS (pixels_size s.PIXBUF) ok]) := by
      intro ok
      refine ⟨pixels_release s ++ [Event.create Obj.DEVICE_PIXELS (pixels_size s.PIXBUF) ok],
        by simp, ?_⟩
      intro e he
      rcases List.mem_append.mp he with h1 | h1
      · exact hrel e h1
      · rw [List.mem_singleton.mp h1]; rfl
    split
    · refine ⟨hstep true, ?_⟩
      exact ⟨h.1, fun _ => ⟨hf, rfl⟩, h.2.2⟩
    · obtain ⟨g, hc⟩ := shutdown_safe { s with
        device_pixels_allocated := false
        DEVICE_PIXELS := none
        trace := s.trace ++ pixels_release s ++
          [Event.create Obj.DEVICE_PIXELS (pixels_size s.PIXBUF) false] }
        ⟨h.1, fun hp => absurd hp (by simp), h.2.2⟩
      exact ⟨grows_trans (hstep false) g, hc⟩

theorem allocate_device_balls_safe {F : Type} (env : Env F) (s : State F) (h : Coherent s) :
    Grows (fun e => e.isBadRelease = false) s.trace (allocate_device_balls env s).trace ∧
    Coherent (allocate_device_balls env s) := by
  cases hf : s.opencl_framework_available
  · rw [allocate_device_balls_off env s hf]
    exact ⟨grows_refl _ _, h⟩
  · rw [allocate_device_balls_on env s hf]
    have hrel : ∀ e ∈ balls_release s, e.isBadRelease = false := by
      intro e he
      unfold balls_release at he
      split_ifs at he with hp
      · rw [List.mem_singleton.mp he]
        simp [Event.isBadRelease, (h.2.2 hp).2]
      · simp at he
    have hstep : ∀ ok, Grows (fun e => e.isBadRelease = false) s.trace
        (s.trace ++ balls_release s ++
          [Event.create Obj.DEVICE_BALLS (balls_size env s) ok]) := by
      intro ok
      refine ⟨balls_release s ++ [Event.create Obj.DEVICE_BALLS (balls_size env s) ok],
        by simp, ?_⟩
      intro e he
      rcases List.mem_append.mp he with h1 | h1
      · exact hrel e h1
      · rw [List.mem_singleton.mp h1]; rfl
    split
    · refine ⟨hstep true, ?_⟩
      exact ⟨h.1, h.2.1, fun _ => ⟨hf, rfl⟩⟩
    · obtain ⟨g, hc⟩ := shutdown_safe { s with
        device_balls_allocated := false
        DEVICE_BALLS := none
        trace := s.trace ++ balls_release s ++
          [Event.create Obj.DEVICE_BALLS (balls_size env s) false] }
        ⟨h.1, h.2.1, fun hp => absurd hp (by simp)⟩
      exact ⟨grows_trans (hstep false) g, hc⟩

theorem framework_call_safe {F : Type} (env : Env F) (s : State F) (c : FrameworkCall F)
    (h : Coherent s) :
    Grows (fun e => e.isBadRelease = false) s.trace (c.run env s).trace ∧
    Coherent (c.run env s) := by
  cases c with
  | allocate_device_pixels => exact allocate_device_pixels_safe env s h
  | allocate_device_balls => exact allocate_device_balls_safe env s h
  | shutdown_opencl_framework => exact shutdown_safe s h
  | host params pixbuf => exact ⟨grows_refl _ _, h⟩

theorem framework_calls_safe {F : Type} (env : Env F) (calls : List (FrameworkCall F)) :
    ∀ s : State F, Coherent s →
      Grows (fun e => e.isBadRelease = false) s.trace
        (calls.foldl (FrameworkCall.run env) s).trace ∧
      Coherent (calls.foldl (FrameworkCall.run env) s) := by
  induction calls with
  | nil => intro s h; exact ⟨grows_refl _ _, h⟩
  | cons c calls ih =>
    intro s h
    obtain ⟨g1, h1⟩ := framework_call_safe env s c h
    obtain ⟨g2, h2⟩ := ih (c.run env s) h1
    exact ⟨grows_trans g1 g2, h2⟩

/-- C12: no double release.  Start in a state where nothing was created, call
`initialize_opencl_framework` once and then, in any order and any number of
times, `allocate_device_pixels`, `allocate_device_balls` and
`shutdown_opencl_framework` (the host being free to replace the parameters and
the host image in between), every creation succeeding or failing as the
environment decides.  Every release made acts on a valid object: one that was
created successfully and not released since.  A set PIXELS or BALLS flag
implies that the framework flag is set, and the flags tell the truth about
which objects are valid.  When `initialize_opencl_framework` fails it has
released exactly the objects it created, last created first, and leaves the
framework flag cleared and no object valid; when it succeeds it has created
context, init kernel, fade kernel, step kernel and queue and released
nothing. -/
theorem no_double_release {F : Type} (env : Env F) (s : State F)
    (calls : List (FrameworkCall F)) (h : Unborn s) :
    (∀ e ∈ (run_framework env s calls).trace.drop s.trace.length, e.isBadRelease = false) ∧
    ((run_framework env s calls).device_pixels_allocated = true →
      (run_framework env s calls).opencl_framework_available = true) ∧
    ((run_framework env s calls).device_balls_allocated = true →
      (run_framework env s calls).opencl_framework_available = true) ∧
    Coherent (run_framework env s calls) ∧
    ((initialize_opencl_framework env s).opencl_framework_available = false →
      released_objects ((initialize_opencl_framework env s).trace.drop s.trace.length) =
        (created_objects
          ((initialize_opencl_framework env s).trace.drop s.trace.length)).reverse ∧
      ∀ o, (initialize_opencl_framework env s).valid o = false) ∧
    ((initialize_opencl_framework env s).opencl_framework_available = true →
      released_objects ((initialize_opencl_framework env s).trace.drop s.trace.length) = [] ∧
      created_objects ((initialize_opencl_framework env s).trace.drop s.trace.length) =
        [Obj.CONTEXT, Obj.INIT_KERNEL, Obj.ALPHA_KERNEL, Obj.BALLS_KERNEL, Obj.QUEUE]) := by
  obtain ⟨L, hL, hgood, hc, hfail, hok⟩ := initialize_safe env s h
  obtain ⟨g, hc'⟩ := framework_calls_safe env calls (initialize_opencl_framework env s) hc
  have hdrop : (initialize_opencl_framework env s).trace.drop s.trace.length = L := by
    rw [hL]; simp
  refine ⟨?_, fun hp => (hc'.2.1 hp).1, fun hb => (hc'.2.2 hb).1, hc', ?_, ?_⟩
  · exact grows_drop (grows_trans ⟨L, hL, hgood⟩ g)
  · rw [hdrop]; exact hfail
  · rw [hdrop]; exact hok


/-- Witness of C12: from the initial globals with every call succeeding, the
host image is set, PIXELS is allocated, the framework is shut down twice and
BALLS is then asked for. -/
theorem no_double_release_witness :
    Coherent (run_framework env_ok (init_state : State Centi)
      [FrameworkCall.host default_params (some (gdk_pixbuf_new env_ok 800 800)),
       FrameworkCall.allocate_device_pixels, FrameworkCall.shutdown_opencl_framework,
       FrameworkCall.shutdown_opencl_framework, FrameworkCall.allocate_device_balls]) ∧
    created_objects ((initialize_opencl_framework env_ok (init_state : State Centi)).trace.drop
        (init_state : State Centi).trace.length) =
      [Obj.CONTEXT, Obj.INIT_KERNEL, Obj.ALPHA_KERNEL, Obj.BALLS_KERNEL, Obj.QUEUE] :=
  have h := no_double_release env_ok (init_state : State Centi)
    [FrameworkCall.host default_params (some (gdk_pixbuf_new env_ok 800 800)),
     FrameworkCall.allocate_device_pixels, FrameworkCall.shutdown_opencl_framework,
     FrameworkCall.shutdown_opencl_framework, FrameworkCall.allocate_device_balls]
    ⟨rfl, rfl, rfl, rfl, rfl, rfl, rfl, rfl, rfl, rfl⟩
  ⟨h.2.2.2.1, (h.2.2.2.2.2 rfl).2⟩

/-- The calls of the run of the witness of C12: the second shutdown and the
allocation behind it make no call at all. -/
theorem run_framework_example :
    (run_framework env_ok (init_state : State Centi)
      [FrameworkCall.host default_params (some (gdk_pixbuf_new env_ok 800 800)),
       FrameworkCall.allocate_device_pixels, FrameworkCall.shutdown_opencl_framework,
       FrameworkCall.shutdown_opencl_framework, FrameworkCall.allocate_device_balls]).trace =
      [Event.choose_device true, Event.create Obj.CONTEXT 0 true,
       Event.create Obj.INIT_KERNEL 0 true, Event.create Obj.ALPHA_KERNEL 0 true,
       Event.create Obj.BALLS_KERNEL 0 true, Event.create Obj.QUEUE 0 true,
       Event.create Obj.DEVICE_PIXELS 1920000 true,
       Event.release Obj.BALLS_KERNEL true, Event.release Obj.ALPHA_KERNEL true,
       Event.release Obj.INIT_KERNEL true, Event.release Obj.QUEUE true,
       Event.release Obj.CONTEXT true, Event.release Obj.DEVICE_PIXELS true] := by
  rfl

end Particles
